import Mathlib

/-!
The module m_ssl_openssl: session layer and certificate verifier.

A shallow embedding of `src/modules/extra/m_ssl_openssl.cpp`.

* Every C++ member function that the properties below talk about is a Lean
  function of the same name.  A function that mutates `issl_session* session`
  takes the session record and returns the updated record.
* Calls into the TLS library and the socket engine are not executed.  What a
  library call returns is read from an environment record `Env` (one record per
  invocation of a module entry point), and what the module asks the outside
  world to do (shutdown and free of a handle, event-mask changes, socket
  errors, log lines) is appended to a list of `Effect`s, oldest first.
* Every assignment to `session->status` additionally leaves an
  `Effect.status` entry, so the order of status writes can be read off the
  effect list.
* Declarations of the repository that are not part of the translated file
  (`ssl_cert`, the `FD_*` event-mask bits, `irc::hex`) are parameters.
-/

namespace OpenSSLModule

/-! ## Data model -/

/-- The enum `issl_status` (line 67). -/
inductive issl_status where
  | ISSL_NONE
  | ISSL_HANDSHAKING
  | ISSL_OPEN
  deriving DecidableEq, Repr

/-- Identity of a library handle (`SSL*`); `Option SSL` is a nullable pointer. -/
abbrev SSL := Nat

/-- Byte strings (`std::string` used as a buffer). -/
abbrev Bytes := List UInt8

/-- The members of `ssl_cert` that the module reads or writes. The class is
declared in `ssl.h`; only its use is visible in the translated file. -/
structure ssl_cert where
  dn : String
  issuer : String
  error : String
  fingerprint : String
  trusted : Bool
  invalid : Bool
  unknownsigner : Bool
  deriving DecidableEq, Repr

/-- The class `issl_session` (lines 84-102). -/
structure issl_session where
  sess : Option SSL
  status : issl_status
  cert : Option ssl_cert
  chain : List ssl_cert
  outbound : Bool
  data_to_write : Bool
  deriving DecidableEq, Repr

/-- The public key of a certificate as the module sees it: `EVP_PKEY_id` and
`EVP_PKEY_bits`. -/
structure EVP_PKEY where
  id : Int
  bits : Int
  deriving DecidableEq, Repr

/-- A certificate (`X509*`) as the module sees it, one field per library query
made by `VerifyCertificate` and `VerifyCertificateStrength`.

* `subject_name`, `issuer_name`: the C string that `X509_NAME_oneline` leaves in
  the 512 byte buffer for the subject and the issuer name;
* `pubkey`: `X509_get_pubkey`, `none` for a null result;
* `signature_nid`: `X509_get_signature_nid`;
* `digest`: `X509_digest` under the digest selected by the number given,
  `none` when the call fails;
* `notBefore`, `notAfter`: the validity bounds as POSIX times. -/
structure X509 where
  subject_name : String
  issuer_name : String
  pubkey : Option EVP_PKEY
  signature_nid : Int
  digest : Nat → Option Bytes
  notBefore : Int
  notAfter : Int

/-- Tables and declarations the module uses but does not define: the OpenSSL
object tables `OBJ_nid2ln` and `OBJ_nid2sn`, `X509_verify_cert_error_string`,
the helper `irc::hex`, and the record that `new ssl_cert` constructs. -/
structure Lib where
  OBJ_nid2ln : Int → String
  OBJ_nid2sn : Int → String
  X509_verify_cert_error_string : Int → String
  hex : Bytes → String
  new_ssl_cert : ssl_cert

/-- The event-mask bits of the socket engine that the module passes to
`ChangeEventMask`; their values are declared outside the translated file. -/
structure EventMaskBits where
  FD_WANT_NO_READ : Nat
  FD_WANT_POLL_READ : Nat
  FD_WANT_NO_WRITE : Nat
  FD_WANT_SINGLE_WRITE : Nat
  FD_ADD_TRIAL_READ : Nat
  FD_ADD_TRIAL_WRITE : Nat

/-- The policy members of `ModuleSSLOpenSSL` (lines 129-133): the selected
digest and the parallel vectors `keytypes`, `keysizes`, and `sigalgs`; and the
array `sessions` (line 120), one entry per descriptor, allocated with
`GetMaxFds()` entries (line 232). -/
structure ModuleSSLOpenSSL where
  hash : Nat
  keytypes : List Int
  keysizes : List Int
  sigalgs : List Int
  sessions : List issl_session := []

/-- What the module asks of the outside world, plus the writes of
`session->status`. -/
inductive Effect where
  | SSL_shutdown (h : SSL)
  | SSL_free (h : SSL)
  | ChangeEventMask (mask : Nat)
  | SetError (msg : String)
  | Shutdown (how : Int)
  | Log (msg : String)
  | status (s : issl_status)
  deriving DecidableEq, Repr

/-- What the library reports about the peer once the handshake is complete:
`SSL_get_peer_certificate`, `SSL_get_verify_result`, `SSL_get_peer_cert_chain`
(`none` for a null result). -/
structure PeerInfo where
  SSL_get_peer_certificate : Option X509
  SSL_get_verify_result : Int
  SSL_get_peer_cert_chain : Option (List X509)

/-- The results of the library calls made during one invocation of a module
entry point.

* `SelfSigned`: the file-level flag `SelfSigned` (line 69) as the verification
  callbacks have left it when `VerifyChain` runs;
* `Time`: `ServerInstance->Time()`;
* `SSL_new`, `SSL_set_fd`: results of the calls in accept and connect;
* `SSL_connect`, `SSL_accept`, `handshake_error`: result of the handshake
  primitive and of `SSL_get_error` after it;
* `SSL_read`, `read_buffer`, `SSL_pending`: result of `SSL_read`, the contents
  of the read buffer after it, and `SSL_pending`;
* `SSL_write`: result of `SSL_write`;
* `io_error`: `SSL_get_error` after `SSL_read` or `SSL_write`;
* `handshake_start`: the library ran the information callback with
  `SSL_CB_HANDSHAKE_START` during `SSL_read` or `SSL_write`; this is only
  possible in a build that defines `INSPIRCD_OPENSSL_ENABLE_RENEGO_DETECTION`
  and has the callback installed, and is `false` otherwise. -/
structure Env where
  SelfSigned : Bool
  Time : Int
  SSL_new : Option SSL
  SSL_set_fd : Int
  SSL_connect : Int
  SSL_accept : Int
  handshake_error : Int
  peer : PeerInfo
  SSL_read : Int
  read_buffer : Bytes
  SSL_pending : Int
  SSL_write : Int
  io_error : Int
  handshake_start : Bool

/-- Outcome of a member function working on a session: the session afterwards,
the effects in the order they were issued, and the return value. -/
structure Step (α : Type) where
  session : issl_session
  effects : List Effect
  ret : α

/-- Outcome of `OnStreamSocketRead` and `OnStreamSocketWrite`: as `Step Int`,
with the caller's buffer (`recvq`, respectively `buffer`) afterwards. -/
structure IOStep where
  session : issl_session
  effects : List Effect
  ret : Int
  buffer : Bytes

/-! ## Library constants -/

/-- OpenSSL: `SSL_ERROR_WANT_READ`. -/
def SSL_ERROR_WANT_READ : Int := 2

/-- OpenSSL: `SSL_ERROR_WANT_WRITE`. -/
def SSL_ERROR_WANT_WRITE : Int := 3

/-- OpenSSL: `X509_V_OK`. -/
def X509_V_OK : Int := 0

/-- OpenSSL: `X509_V_ERR_DEPTH_ZERO_SELF_SIGNED_CERT`. -/
def X509_V_ERR_DEPTH_ZERO_SELF_SIGNED_CERT : Int := 18

/-- OpenSSL: `ASN1_UTCTIME_cmp_time_t s t` is -1 when `s` is earlier than `t`,
0 when they are equal and 1 when `s` is later than `t`. -/
def ASN1_UTCTIME_cmp_time_t (s t : Int) : Int :=
  if s < t then -1 else if s = t then 0 else 1

/-- The conversion `(int)n` of a `size_t` to a 32 bit `int`. -/
def int_cast (n : Nat) : Int :=
  ((n : Int) + 2 ^ 31) % 2 ^ 32 - 2 ^ 31

/-- The call `s.find_first_of(chars)` of `std::string`: the position of the
first character of `s` that occurs in `chars`, `none` for `npos`. -/
def find_first_of (s chars : String) : Option Nat :=
  s.data.findIdx? (fun c => chars.data.contains c)

/-- The two characters of the C string literal `"\r\n"`. -/
def CRLF : String := String.mk [Char.ofNat 13, Char.ofNat 10]

/-! ## The verification callback -/

/-- The callback `OnVerify` (lines 104-116), given the value `ve` of
`X509_STORE_CTX_get_error(ctx)`: the new value of the flag `SelfSigned` and the
return value. -/
def OnVerify (_preverify_ok : Int) (ve : Int) : Bool × Int :=
  (decide (ve = X509_V_ERR_DEPTH_ZERO_SELF_SIGNED_CERT), 1)

/-! ## Closing a session -/

/-- The function `CloseSession` (lines 920-932). -/
def CloseSession (session : issl_session) : Step Unit :=
  { session := { session with sess := none, status := .ISSL_NONE, cert := none, chain := [] }
    effects :=
      (match session.sess with
        | some h => [Effect.SSL_shutdown h, Effect.SSL_free h]
        | none => []) ++ [Effect.status .ISSL_NONE]
    ret := () }

/-! ## The certificate verifier -/

/-- The call `s.pop_back()` of `std::string`: `s` without its last character. -/
def pop_back (s : String) : String :=
  String.mk s.data.dropLast

/-- How the loop over the key types (lines 1041-1052) ends: with the early
return of line 1049 and its error text, with the `break` of line 1051, or by
running off the end of `keytypes` (the case `i == keytypes.size()`). -/
inductive KeyLoop where
  | too_short (error : String)
  | key_okay
  | not_found
  deriving DecidableEq, Repr

/-- The loop of lines 1041-1052 from index `i` on; the arguments are
`keytypes` and `keysizes` from index `i` on. The two vectors are only ever
extended together (lines 495-496), so `keysizes[i]` exists whenever
`keytypes[i]` does. -/
def key_loop (lib : Lib) (pkey_type pkey_size : Int) : List Int → List Int → KeyLoop
  | [], _ => .not_found
  | t :: ts, sizes =>
    if pkey_type ≠ t then
      key_loop lib pkey_type pkey_size ts sizes.tail
    else if pkey_size < sizes.headD 0 then
      .too_short ("'" ++ lib.OBJ_nid2ln t ++ "' key must be >= '" ++ toString (sizes.headD 0)
        ++ "' bits, was '" ++ toString pkey_size ++ "'")
    else
      .key_okay

/-- The loop of lines 1056-1058 building `expected` from the key policy. -/
def expected_keys (lib : Lib) : List Int → List Int → String → String
  | [], _, expected => expected
  | t :: ts, sizes, expected =>
    expected_keys lib ts sizes.tail
      (expected ++ (lib.OBJ_nid2ln t ++ ":" ++ toString (sizes.headD 0) ++ ","))

/-- The loop of lines 1079-1081 building `expected` from the signature
algorithms. -/
def expected_sigalgs (lib : Lib) : List Int → String → String
  | [], expected => expected
  | a :: as, expected => expected_sigalgs lib as (expected ++ (lib.OBJ_nid2sn a ++ ","))

/-- The signature-algorithm part of `VerifyCertificateStrength`
(lines 1067-1086), entered with `error` empty. -/
def verify_sigalg (m : ModuleSSLOpenSSL) (lib : Lib) (cert : X509) : String :=
  if m.sigalgs ≠ [] then
    if m.sigalgs.contains cert.signature_nid then
      ""
    else
      "Invalid signature algorithm; got '" ++ lib.OBJ_nid2sn cert.signature_nid
        ++ "' expected one of '" ++ pop_back (expected_sigalgs lib m.sigalgs "") ++ "'"
  else
    ""

/-- The function `VerifyCertificateStrength` (lines 1029-1087); the result is
the value of the out-parameter `error` on return. -/
def VerifyCertificateStrength (m : ModuleSSLOpenSSL) (lib : Lib) (cert : X509) : String :=
  if m.keytypes ≠ [] then
    match cert.pubkey with
    | none => "Unable to get pubkey from peer cert"
    | some evp_pkey =>
      match key_loop lib evp_pkey.id evp_pkey.bits m.keytypes m.keysizes with
      | .too_short error => error
      | .not_found =>
        "Peer key type '" ++ lib.OBJ_nid2ln evp_pkey.id
          ++ "' does not match expected peer key type:size pairs '"
          ++ pop_back (expected_keys lib m.keytypes m.keysizes "") ++ "'"
      | .key_okay => verify_sigalg m lib cert
  else
    verify_sigalg m lib cert

/-- The function `VerifyCertificate` (lines 934-983): the record `certinfo`
after the call. `SelfSigned` is the file-level flag and `now` is
`ServerInstance->Time()`. -/
def VerifyCertificate (m : ModuleSSLOpenSSL) (lib : Lib) (SelfSigned : Bool) (now : Int)
    (certinfo : ssl_cert) (cert : X509) : ssl_cert :=
  let error := VerifyCertificateStrength m lib cert
  let certinfo := if error ≠ "" then { certinfo with error := error } else certinfo
  let certinfo :=
    if !SelfSigned then { certinfo with unknownsigner := false, trusted := true }
    else { certinfo with unknownsigner := true, trusted := false }
  let certinfo := { certinfo with dn := cert.subject_name }
  let certinfo :=
    if find_first_of certinfo.dn CRLF ≠ none then { certinfo with dn := "" } else certinfo
  let certinfo := { certinfo with issuer := cert.issuer_name }
  let certinfo :=
    if find_first_of certinfo.issuer CRLF ≠ none then { certinfo with issuer := "" } else certinfo
  let certinfo :=
    match cert.digest m.hash with
    | none => { certinfo with error := "Out of memory generating fingerprint" }
    | some md => { certinfo with fingerprint := lib.hex md }
  if ASN1_UTCTIME_cmp_time_t cert.notAfter now = -1
      ∨ ASN1_UTCTIME_cmp_time_t cert.notBefore now = 0 then
    { certinfo with error := "Not activated, or expired certificate" }
  else
    certinfo

/-- The loop of lines 1013-1026 from index `i` on: `chain` holds the peer chain
from index `i` on, the state is the leaf record `certinfo` and the vector
`session->chain`. -/
def verify_chain_loop (m : ModuleSSLOpenSSL) (lib : Lib) (SelfSigned : Bool) (now : Int) :
    List X509 → Nat → ssl_cert × List ssl_cert → ssl_cert × List ssl_cert
  | [], _, state => state
  | x :: chain, i, (certinfo, session_chain) =>
    let chaininfo := VerifyCertificate m lib SelfSigned now lib.new_ssl_cert x
    let session_chain := session_chain ++ [chaininfo]
    let certinfo :=
      if chaininfo.error ≠ "" then
        let certinfo :=
          if certinfo.error ≠ "" then { certinfo with error := certinfo.error ++ "\n\t" }
          else certinfo
        { certinfo with
          error := certinfo.error ++ ("Cert chain #" ++ toString (i + 1) ++ ": " ++ chaininfo.error) }
      else certinfo
    verify_chain_loop m lib SelfSigned now chain (i + 1) (certinfo, session_chain)

/-- The function `VerifyChain` (lines 985-1027): the session after the call.
`user` says whether the pointer `user` is non-null. -/
def VerifyChain (m : ModuleSSLOpenSSL) (lib : Lib) (e : Env) (session : issl_session)
    (user : Bool) : issl_session :=
  if session.sess = none ∨ user = false then
    session
  else
    let certinfo := lib.new_ssl_cert
    match e.peer.SSL_get_peer_certificate with
    | none =>
      { session with cert := some { certinfo with error := "Could not get peer certificate" } }
    | some cert =>
      let x509_ret := e.peer.SSL_get_verify_result
      let certinfo := { certinfo with invalid := decide (x509_ret ≠ X509_V_OK) }
      let certinfo :=
        if certinfo.invalid then
          { certinfo with error := lib.X509_verify_cert_error_string x509_ret }
        else certinfo
      let certinfo := VerifyCertificate m lib e.SelfSigned e.Time certinfo cert
      match e.peer.SSL_get_peer_cert_chain with
      | none => { session with cert := some certinfo }
      | some chain =>
        let r := verify_chain_loop m lib e.SelfSigned e.Time chain 0 (certinfo, session.chain)
        { session with cert := some r.1, chain := r.2 }

/-! ## The handshake engine -/

/-- The function `Handshake` (lines 870-918). The handshake primitive is chosen
by `session->outbound`. Of the log line of lines 912-915 the text up to its
first argument is recorded. -/
def Handshake (m : ModuleSSLOpenSSL) (lib : Lib) (bits : EventMaskBits) (e : Env)
    (session : issl_session) : Step Bool :=
  let ret := if session.outbound then e.SSL_connect else e.SSL_accept
  let failed : Step Bool :=
    let r := CloseSession session
    { session := r.session
      effects :=
        Effect.Log ("OpenSSL handshake " ++ (if ret ≠ 0 then "error" else "failure")) :: r.effects
      ret := false }
  if ret < 0 then
    if e.handshake_error = SSL_ERROR_WANT_READ then
      { session := { session with status := .ISSL_HANDSHAKING }
        effects :=
          [Effect.ChangeEventMask (bits.FD_WANT_POLL_READ ||| bits.FD_WANT_NO_WRITE),
            Effect.status .ISSL_HANDSHAKING]
        ret := true }
    else if e.handshake_error = SSL_ERROR_WANT_WRITE then
      { session := { session with status := .ISSL_HANDSHAKING }
        effects :=
          [Effect.ChangeEventMask (bits.FD_WANT_NO_READ ||| bits.FD_WANT_SINGLE_WRITE),
            Effect.status .ISSL_HANDSHAKING]
        ret := true }
    else failed
  else if ret > 0 then
    let session := VerifyChain m lib e session true
    { session := { session with status := .ISSL_OPEN }
      effects :=
        [Effect.status .ISSL_OPEN,
          Effect.ChangeEventMask
            (bits.FD_WANT_POLL_READ ||| bits.FD_WANT_NO_WRITE ||| bits.FD_ADD_TRIAL_WRITE)]
      ret := true }
  else failed

/-- The callback `SSLInfoCallback` (lines 199-211) run on the session of the
descriptor; `handshake_start` is the test `where & SSL_CB_HANDSHAKE_START`. -/
def SSLInfoCallback (handshake_start : Bool) (session : issl_session) :
    issl_session × List Effect :=
  if handshake_start = true ∧ session.status = .ISSL_OPEN then
    ({ session with status := .ISSL_NONE }, [Effect.status .ISSL_NONE, Effect.Shutdown 2])
  else
    (session, [])

/-- The function `CheckRenego` (lines 213-222). In a build without
`INSPIRCD_OPENSSL_ENABLE_RENEGO_DETECTION` the call is absent; it is reached
with status `ISSL_OPEN` then, where it returns `true` and does nothing. -/
def CheckRenego (session : issl_session) : Step Bool :=
  if session.status ≠ .ISSL_NONE then
    { session := session, effects := [], ret := true }
  else
    let r := CloseSession session
    { session := r.session
      effects := r.effects ++ [Effect.SetError "Renegotiation is not allowed"]
      ret := false }

/-! ## The entry points, on the session of the descriptor -/

/-- The body of `OnStreamSocketAccept` (lines 652-668) on `session`. -/
def OnStreamSocketAccept (m : ModuleSSLOpenSSL) (lib : Lib) (bits : EventMaskBits) (e : Env)
    (session : issl_session) : Step Unit :=
  let session :=
    { session with
      sess := e.SSL_new, status := .ISSL_NONE, outbound := false, data_to_write := false }
  if session.sess = none then
    { session := session, effects := [Effect.status .ISSL_NONE], ret := () }
  else if e.SSL_set_fd = 0 then
    { session := session, effects := [Effect.status .ISSL_NONE], ret := () }
  else
    let r := Handshake m lib bits e session
    { session := r.session, effects := Effect.status .ISSL_NONE :: r.effects, ret := () }

/-- The body of `OnStreamSocketConnect` (lines 678-694) on `session`. -/
def OnStreamSocketConnect (m : ModuleSSLOpenSSL) (lib : Lib) (bits : EventMaskBits) (e : Env)
    (session : issl_session) : Step Unit :=
  let session :=
    { session with
      sess := e.SSL_new, status := .ISSL_NONE, outbound := true, data_to_write := false }
  if session.sess = none then
    { session := session, effects := [Effect.status .ISSL_NONE], ret := () }
  else if e.SSL_set_fd = 0 then
    { session := session, effects := [Effect.status .ISSL_NONE], ret := () }
  else
    let r := Handshake m lib bits e session
    { session := r.session, effects := Effect.status .ISSL_NONE :: r.effects, ret := () }

/-- The body of `OnStreamSocketClose` (line 704) on `session`. -/
def OnStreamSocketClose (session : issl_session) : Step Unit :=
  CloseSession session

/-- Lines 736-791 of `OnStreamSocketRead`: the read of an open session and the
final `return 0`. -/
def read_open (bits : EventMaskBits) (e : Env) (session : issl_session) (recvq : Bytes) :
    IOStep :=
  if session.status = .ISSL_OPEN then
    let ret := e.SSL_read
    let cb := SSLInfoCallback e.handshake_start session
    let c := CheckRenego cb.1
    if c.ret = false then
      { session := c.session, effects := cb.2 ++ c.effects, ret := -1, buffer := recvq }
    else
      let session := c.session
      if ret > 0 then
        let recvq := recvq ++ e.read_buffer.take ret.toNat
        let mask := 0
        let mask := if e.SSL_pending > 0 then mask ||| bits.FD_ADD_TRIAL_READ else mask
        let mask :=
          if session.data_to_write then
            mask ||| (bits.FD_WANT_POLL_READ ||| bits.FD_WANT_SINGLE_WRITE)
          else mask
        { session := session
          effects := cb.2 ++ (if mask ≠ 0 then [Effect.ChangeEventMask mask] else [])
          ret := 1, buffer := recvq }
      else if ret = 0 then
        let r := CloseSession session
        { session := r.session
          effects := cb.2 ++ r.effects ++ [Effect.SetError "Connection closed"]
          ret := -1, buffer := recvq }
      else if e.io_error = SSL_ERROR_WANT_READ then
        { session := session
          effects := cb.2 ++ [Effect.ChangeEventMask bits.FD_WANT_POLL_READ]
          ret := 0, buffer := recvq }
      else if e.io_error = SSL_ERROR_WANT_WRITE then
        { session := session
          effects :=
            cb.2 ++ [Effect.ChangeEventMask (bits.FD_WANT_NO_READ ||| bits.FD_WANT_SINGLE_WRITE)]
          ret := 0, buffer := recvq }
      else
        let r := CloseSession session
        { session := r.session, effects := cb.2 ++ r.effects, ret := -1, buffer := recvq }
  else
    { session := session, effects := [], ret := 0, buffer := recvq }

/-- The body of `OnStreamSocketRead` (lines 714-791) on `session`; `buffer` of
the result is `recvq` afterwards. -/
def OnStreamSocketRead (m : ModuleSSLOpenSSL) (lib : Lib) (bits : EventMaskBits) (e : Env)
    (session : issl_session) (recvq : Bytes) : IOStep :=
  if session.sess = none then
    let r := CloseSession session
    { session := r.session, effects := r.effects, ret := -1, buffer := recvq }
  else if session.status = .ISSL_HANDSHAKING then
    let h := Handshake m lib bits e session
    if h.ret = false then
      { session := h.session, effects := h.effects
        ret := if h.session.status = .ISSL_NONE then -1 else 0
        buffer := recvq }
    else
      let r := read_open bits e h.session recvq
      { r with effects := h.effects ++ r.effects }
  else
    read_open bits e session recvq

/-- Lines 819-867 of `OnStreamSocketWrite`: the write of an open session and
the final `return 0`. `SSL_write` returns at most the length it was given, so
`buffer.substr(ret)` stays within the buffer. -/
def write_open (bits : EventMaskBits) (e : Env) (session : issl_session) (buffer : Bytes) :
    IOStep :=
  if session.status = .ISSL_OPEN then
    let ret := e.SSL_write
    let cb := SSLInfoCallback e.handshake_start session
    let c := CheckRenego cb.1
    if c.ret = false then
      { session := c.session, effects := cb.2 ++ c.effects, ret := -1, buffer := buffer }
    else
      let session := c.session
      if ret = int_cast buffer.length then
        { session := { session with data_to_write := false }
          effects :=
            cb.2 ++ [Effect.ChangeEventMask (bits.FD_WANT_POLL_READ ||| bits.FD_WANT_NO_WRITE)]
          ret := 1, buffer := buffer }
      else if ret > 0 then
        { session := session
          effects := cb.2 ++ [Effect.ChangeEventMask bits.FD_WANT_SINGLE_WRITE]
          ret := 0, buffer := buffer.drop ret.toNat }
      else if ret = 0 then
        let r := CloseSession session
        { session := r.session, effects := cb.2 ++ r.effects, ret := -1, buffer := buffer }
      else if e.io_error = SSL_ERROR_WANT_WRITE then
        { session := session
          effects := cb.2 ++ [Effect.ChangeEventMask bits.FD_WANT_SINGLE_WRITE]
          ret := 0, buffer := buffer }
      else if e.io_error = SSL_ERROR_WANT_READ then
        { session := session
          effects := cb.2 ++ [Effect.ChangeEventMask bits.FD_WANT_POLL_READ]
          ret := 0, buffer := buffer }
      else
        let r := CloseSession session
        { session := r.session, effects := cb.2 ++ r.effects, ret := -1, buffer := buffer }
  else
    { session := session, effects := [], ret := 0, buffer := buffer }

/-- The body of `OnStreamSocketWrite` (lines 798-867) on `session`. -/
def OnStreamSocketWrite (m : ModuleSSLOpenSSL) (lib : Lib) (bits : EventMaskBits) (e : Env)
    (session : issl_session) (buffer : Bytes) : IOStep :=
  if session.sess = none then
    let r := CloseSession session
    { session := r.session, effects := r.effects, ret := -1, buffer := buffer }
  else
    let session := { session with data_to_write := true }
    if session.status = .ISSL_HANDSHAKING then
      let h := Handshake m lib bits e session
      if h.ret = false then
        { session := h.session, effects := h.effects
          ret := if h.session.status = .ISSL_NONE then -1 else 0
          buffer := buffer }
      else
        let r := write_open bits e h.session buffer
        { r with effects := h.effects ++ r.effects }
    else
      write_open bits e session buffer

/-! ## The entry points, on the descriptor -/

/-- The value of `ServerInstance->SE->GetMaxFds()`: the number of entries the
array `sessions` was allocated with. -/
def GetMaxFds (m : ModuleSSLOpenSSL) : Int :=
  m.sessions.length

/-- The expression `sessions[fd]`: the entry of the descriptor, `none` when
`fd` lies outside the array. -/
def sessions_at (m : ModuleSSLOpenSSL) (fd : Int) : Option issl_session :=
  if 0 ≤ fd ∧ fd < GetMaxFds m then m.sessions[fd.toNat]? else none

/-- The module after the entry of a descriptor inside the array has been
overwritten. -/
def sessions_store (m : ModuleSSLOpenSSL) (fd : Int) (session : issl_session) :
    ModuleSSLOpenSSL :=
  { m with sessions := m.sessions.set fd.toNat session }

/-- How an entry point deals with the array `sessions`.

* `not_indexed ret`: it returned `ret` without evaluating `sessions[fd]`;
* `out_of_bounds`: it evaluated `sessions[fd]` with `fd` outside the array;
* `indexed m effects ret`: it worked on the entry of `fd`; the module
  afterwards, the effects and the return value. -/
inductive Access (α : Type) where
  | not_indexed (ret : α)
  | out_of_bounds
  | indexed (m : ModuleSSLOpenSSL) (effects : List Effect) (ret : α)

/-- The function `OnStreamSocketAccept` (lines 648-669) for a socket with
descriptor `fd`. -/
def ModuleSSLOpenSSL.OnStreamSocketAccept (m : ModuleSSLOpenSSL) (lib : Lib)
    (bits : EventMaskBits) (e : Env) (fd : Int) : Access Unit :=
  match sessions_at m fd with
  | none => .out_of_bounds
  | some session =>
    let r := OpenSSLModule.OnStreamSocketAccept m lib bits e session
    .indexed (sessions_store m fd r.session) r.effects ()

/-- The function `OnStreamSocketConnect` (lines 671-695) for a socket with
descriptor `fd`. -/
def ModuleSSLOpenSSL.OnStreamSocketConnect (m : ModuleSSLOpenSSL) (lib : Lib)
    (bits : EventMaskBits) (e : Env) (fd : Int) : Access Unit :=
  if fd < 0 ∨ fd > GetMaxFds m - 1 then
    .not_indexed ()
  else
    match sessions_at m fd with
    | none => .out_of_bounds
    | some session =>
      let r := OpenSSLModule.OnStreamSocketConnect m lib bits e session
      .indexed (sessions_store m fd r.session) r.effects ()

/-- The function `OnStreamSocketClose` (lines 697-705) for a socket with
descriptor `fd`. -/
def ModuleSSLOpenSSL.OnStreamSocketClose (m : ModuleSSLOpenSSL) (fd : Int) : Access Unit :=
  if fd < 0 ∨ fd > GetMaxFds m - 1 then
    .not_indexed ()
  else
    match sessions_at m fd with
    | none => .out_of_bounds
    | some session =>
      let r := CloseSession session
      .indexed (sessions_store m fd r.session) r.effects ()

/-- The function `OnStreamSocketRead` (lines 707-792) for a socket with
descriptor `fd`; the return value is paired with `recvq` afterwards. -/
def ModuleSSLOpenSSL.OnStreamSocketRead (m : ModuleSSLOpenSSL) (lib : Lib)
    (bits : EventMaskBits) (e : Env) (fd : Int) (recvq : Bytes) : Access (Int × Bytes) :=
  if fd < 0 ∨ fd > GetMaxFds m - 1 then
    .not_indexed (-1, recvq)
  else
    match sessions_at m fd with
    | none => .out_of_bounds
    | some session =>
      let r := OpenSSLModule.OnStreamSocketRead m lib bits e session recvq
      .indexed (sessions_store m fd r.session) r.effects (r.ret, r.buffer)

/-- The function `OnStreamSocketWrite` (lines 794-868) for a socket with
descriptor `fd`; the return value is paired with `buffer` afterwards. -/
def ModuleSSLOpenSSL.OnStreamSocketWrite (m : ModuleSSLOpenSSL) (lib : Lib)
    (bits : EventMaskBits) (e : Env) (fd : Int) (buffer : Bytes) : Access (Int × Bytes) :=
  match sessions_at m fd with
  | none => .out_of_bounds
  | some session =>
    let r := OpenSSLModule.OnStreamSocketWrite m lib bits e session buffer
    .indexed (sessions_store m fd r.session) r.effects (r.ret, r.buffer)

/-- The requests that `OnRequest` answers, with the descriptor they name
(`req.sock->GetFd()`, respectively `req.fd`), and any other request. -/
inductive Request where
  | GET_SSL_CERT (fd : Int)
  | GET_RAW_SSL_SESSION (fd : Int)
  | GET_SSL_CHAIN (fd : Int)
  | other

/-- What `OnRequest` has written into the request: `req.cert`, `req.data`,
`req.chain` (the vector the stored pointer refers to), or nothing. -/
inductive Reply where
  | cert (c : Option ssl_cert)
  | data (d : Option SSL)
  | chain (c : List ssl_cert)
  | nothing
  deriving DecidableEq, Repr

/-- The function `OnRequest` (lines 622-646). -/
def ModuleSSLOpenSSL.OnRequest (m : ModuleSSLOpenSSL) : Request → Access Reply
  | .GET_SSL_CERT fd =>
    match sessions_at m fd with
    | none => .out_of_bounds
    | some session => .indexed m [] (.cert session.cert)
  | .GET_RAW_SSL_SESSION fd =>
    if fd ≥ 0 ∧ fd < GetMaxFds m then
      match sessions_at m fd with
      | none => .out_of_bounds
      | some session => .indexed m [] (.data session.sess)
    else
      .not_indexed .nothing
  | .GET_SSL_CHAIN fd =>
    match sessions_at m fd with
    | none => .out_of_bounds
    | some session => .indexed m [] (.chain session.chain)
  | .other => .not_indexed .nothing

/-! ## Rehash -/

/-- The value the member `hash` holds for `EVP_md5`. -/
def EVP_md5 : Nat := 0

/-- The value the member `hash` holds for `EVP_sha1`. -/
def EVP_sha1 : Nat := 1

/-- The value the member `hash` holds for `EVP_sha256`. -/
def EVP_sha256 : Nat := 2

/-- The values of the `<openssl>` tag that decide the course of
`OnModuleRehash`, as `getString` returns them (the default where the key is
absent): `crlfile`, `crlpath`, `crlmode`, `dhfile`, `peer_keysize_min`,
`peer_sigalg`, `hash`. -/
structure ConfigTag where
  crlfile : String
  crlpath : String
  crlmode : String
  dhfile : String
  peer_keysize_min : String
  peer_sigalg : String
  hash : String

/-- The build option and the results of the library calls that decide the
course of one `OnModuleRehash`.

* `sha256_fingerprint`: the build defines
  `INSPIRCD_OPENSSL_ENABLE_SHA256_FINGERPRINT`;
* `OBJ_txt2nid`: the object table, 0 for an unknown name;
* `SSL_CTX_get_cert_store`: the store is not null;
* `X509_STORE_load_locations`, `X509_STORE_set_flags`: results of the calls;
* `crl_load_error`: the text `err ? ERR_error_string(err, NULL) : "unknown"`;
* `fopen_dhfile`: opening the DH file succeeded; `strerror`: the text of
  `strerror(errno)` when it did not. -/
structure RehashEnv where
  sha256_fingerprint : Bool
  OBJ_txt2nid : String → Int
  SSL_CTX_get_cert_store : Bool
  X509_STORE_load_locations : Int
  crl_load_error : String
  X509_STORE_set_flags : Int
  fopen_dhfile : Bool
  strerror : String

/-- Outcome of `OnModuleRehash`: the members of the module when the function
is left, and the reason of the `ModuleException` it was left with, if any. -/
structure Rehash where
  module : ModuleSSLOpenSSL
  exception : Option String

/-- The call `s.find_last_of(chars)` of `std::string`: the position of the
last character of `s` that occurs in `chars`, `none` for `npos`. -/
def find_last_of (s chars : String) : Option Nat :=
  match s.data.reverse.findIdx? (fun c => chars.data.contains c) with
  | none => none
  | some j => some (s.data.length - 1 - j)

/-- The call `s.substr(pos, n)` of `std::string`, for `pos` within `s`. -/
def substr (s : String) (pos n : Nat) : String :=
  String.mk ((s.data.drop pos).take n)

/-- The call `s.substr(pos)` of `std::string`, for `pos` within `s`. -/
def substr_from (s : String) (pos : Nat) : String :=
  String.mk (s.data.drop pos)

/-- The string after the call `s.erase(0, n)` of `std::string`. -/
def erase_front (s : String) (n : Nat) : String :=
  String.mk (s.data.drop n)

/-- The C function `isspace` in the C locale. -/
def isspace (c : Char) : Bool :=
  c.toNat = 32 || (9 ≤ c.toNat && c.toNat ≤ 13)

/-- The C function `atoi` on the characters of a string, for values within
the range of `int`: leading white space, an optional sign, then the decimal
digits up to the first other character. -/
def atoi (s : String) : Int :=
  let cs := s.data.dropWhile isspace
  let negative := cs.head? = some '-'
  let cs := if cs.head? = some '-' ∨ cs.head? = some '+' then cs.tail else cs
  let n : Nat := (cs.takeWhile Char.isDigit).foldl (fun a d => 10 * a + (d.toNat - 48)) 0
  if negative then -(n : Int) else (n : Int)

/-- The loop of lines 469-497 over the text `keymins`: the module when the
loop is left, and the reason of the exception it was left with, if any. Every
pass removes at least one character from `keymins`; `fuel` bounds the number
of passes and is the length of the text at the start. -/
def keymins_loop (env : RehashEnv) :
    Nat → ModuleSSLOpenSSL → String → ModuleSSLOpenSSL × Option String
  | 0, m, _ => (m, none)
  | fuel + 1, m, keymins =>
    if keymins = "" then (m, none)
    else
      let delim :=
        match find_first_of keymins "," with
        | none => keymins.length
        | some d => d
      let keymin := substr keymins 0 delim
      let keymins := erase_front keymins (delim + 1)
      match find_first_of keymin ":" with
      | none => (m, some ("Expected 'key-type:key-size' in '" ++ keymin ++ "'"))
      | some sep =>
        if some sep ≠ find_last_of keymin ":" then
          (m, some ("Expected single ':' delimiter in '" ++ keymin ++ "'"))
        else
          let key_type_str := substr keymin 0 sep
          let key_size_str := substr_from keymin (sep + 1)
          let key_type := env.OBJ_txt2nid key_type_str
          if key_type = 0 then
            (m, some ("Unknown key type: '" ++ key_type_str ++ "'"))
          else
            let key_size := atoi key_size_str
            if key_size ≤ 0 then
              (m, some ("Key size must be greater than 0 (was '" ++ key_size_str ++ "')"))
            else if m.keytypes.contains key_type then
              (m, some ("Key type '" ++ key_type_str ++ "' specified multiple times"))
            else
              keymins_loop env fuel
                { m with
                  keytypes := m.keytypes ++ [key_type], keysizes := m.keysizes ++ [key_size] }
                keymins

/-- The loop of lines 500-512 over the text `sigalgstrs`, as `keymins_loop`. -/
def sigalgs_loop (env : RehashEnv) :
    Nat → ModuleSSLOpenSSL → String → ModuleSSLOpenSSL × Option String
  | 0, m, _ => (m, none)
  | fuel + 1, m, sigalgstrs =>
    if sigalgstrs = "" then (m, none)
    else
      let delim :=
        match find_first_of sigalgstrs "," with
        | none => sigalgstrs.length
        | some d => d
      let sigalgstr := substr sigalgstrs 0 delim
      let sigalgstrs := erase_front sigalgstrs (delim + 1)
      let sigalg_nid := env.OBJ_txt2nid sigalgstr
      if sigalg_nid = 0 then
        (m, some ("Invalid signature algorithm '" ++ sigalgstr ++ "'"))
      else
        sigalgs_loop env fuel { m with sigalgs := m.sigalgs ++ [sigalg_nid] } sigalgstrs

/-- The function `OnModuleRehash` (lines 337-572) as far as it reads or writes
members of the module or can throw. The call of `OnRehash` (line 353), which
only writes `sslports`, loading certificate, key, CA and DH material into the
two contexts, the notices and the log lines are left out: they touch none of
these members and do not throw. -/
def OnModuleRehash (m : ModuleSSLOpenSSL) (env : RehashEnv) (conf : ConfigTag)
    (param : String) : Rehash :=
  if param ≠ "ssl" then
    { module := m, exception := none }
  else
    let hash : Option Nat :=
      if conf.hash = "md5" then some EVP_md5
      else if conf.hash = "sha1" then some EVP_sha1
      else if env.sha256_fingerprint = true ∧ conf.hash = "sha256" then some EVP_sha256
      else none
    match hash with
    | none => { module := m, exception := some ("Unknown hash type " ++ conf.hash) }
    | some h =>
      let m := { m with hash := h }
      if conf.crlmode ≠ "chain" ∧ conf.crlmode ≠ "leaf" then
        { module := m
          exception := some ("Unknown mode '" ++ conf.crlmode
            ++ "'; expected either 'chain' (default) or 'leaf'") }
      else
        let crl : Option String :=
          if conf.crlfile ≠ "" ∨ conf.crlpath ≠ "" then
            if env.SSL_CTX_get_cert_store = false then
              some "Unable to get X509_STORE from SSL context; this should never happen"
            else if env.X509_STORE_load_locations = 0 then
              some ("Unable to load CRL file '" ++ conf.crlfile ++ "' or CRL path '"
                ++ conf.crlpath ++ "': '" ++ env.crl_load_error ++ "'")
            else if env.X509_STORE_set_flags ≠ 1 then
              some "Unable to set X509 CRL flags"
            else none
          else none
        match crl with
        | some reason => { module := m, exception := some reason }
        | none =>
          let k := keymins_loop env conf.peer_keysize_min.length m conf.peer_keysize_min
          match k.2 with
          | some reason => { module := k.1, exception := some reason }
          | none =>
            let g := sigalgs_loop env conf.peer_sigalg.length k.1 conf.peer_sigalg
            match g.2 with
            | some reason => { module := g.1, exception := some reason }
            | none =>
              if env.fopen_dhfile = false then
                { module := g.1
                  exception :=
                    some ("Couldn't open DH file " ++ conf.dhfile ++ ": " ++ env.strerror) }
              else
                { module := g.1, exception := none }

/-- The object table of the examples by name: `rsaEncryption` 6,
`sha256WithRSAEncryption` 668, 0 for any other name. A rehash in which every
library call succeeds. -/
def example_rehash_env : RehashEnv :=
  { sha256_fingerprint := false
    OBJ_txt2nid := fun name =>
      if name = "rsaEncryption" then 6 else if name = "sha256WithRSAEncryption" then 668 else 0
    SSL_CTX_get_cert_store := true, X509_STORE_load_locations := 1
    crl_load_error := "unknown", X509_STORE_set_flags := 1
    fopen_dhfile := true, strerror := "No such file or directory" }

/-- A configuration with the key-size policy `rsaEncryption:2048` and the
signature algorithm `sha256WithRSAEncryption`. -/
def policy_config : ConfigTag :=
  { crlfile := "", crlpath := "", crlmode := "chain", dhfile := "conf/dhparams.pem"
    peer_keysize_min := "rsaEncryption:2048", peer_sigalg := "sha256WithRSAEncryption"
    hash := "md5" }

/-- A configuration with the signature algorithm `sha256WithRSAEncryption`
and no key-size policy. -/
def sigalg_config : ConfigTag :=
  { policy_config with peer_keysize_min := "" }

/-- A configuration whose CRL mode is neither `chain` nor `leaf`. -/
def bad_crlmode_config : ConfigTag :=
  { policy_config with crlmode := "full" }

/-! ## Sequences of operations on one session -/

/-- One invocation of an entry point for the descriptor of the session, with
the environment of that invocation and, for read and write, the buffer the
caller passes. -/
inductive Op where
  | accept (e : Env)
  | connect (e : Env)
  | close
  | read (e : Env) (recvq : Bytes)
  | write (e : Env) (buffer : Bytes)

/-- The session and the effects of one operation. -/
def Op.apply (m : ModuleSSLOpenSSL) (lib : Lib) (bits : EventMaskBits)
    (session : issl_session) : Op → issl_session × List Effect
  | .accept e =>
    let r := OnStreamSocketAccept m lib bits e session
    (r.session, r.effects)
  | .connect e =>
    let r := OnStreamSocketConnect m lib bits e session
    (r.session, r.effects)
  | .close =>
    let r := OnStreamSocketClose session
    (r.session, r.effects)
  | .read e recvq =>
    let r := OnStreamSocketRead m lib bits e session recvq
    (r.session, r.effects)
  | .write e buffer =>
    let r := OnStreamSocketWrite m lib bits e session buffer
    (r.session, r.effects)

/-- The session after a sequence of operations, and all effects in order. -/
def run (m : ModuleSSLOpenSSL) (lib : Lib) (bits : EventMaskBits) :
    issl_session → List Op → issl_session × List Effect
  | session, [] => (session, [])
  | session, op :: ops =>
    let r := Op.apply m lib bits session op
    let rest := run m lib bits r.1 ops
    (rest.1, r.2 ++ rest.2)

/-- The values written to `session->status`, in order. -/
def status_writes : List Effect → List issl_status
  | [] => []
  | Effect.status s :: es => s :: status_writes es
  | _ :: es => status_writes es

/-- The values `session->status` takes during a sequence of operations: the
status before, then every value written. -/
def status_trace (m : ModuleSSLOpenSSL) (lib : Lib) (bits : EventMaskBits)
    (session : issl_session) (ops : List Op) : List issl_status :=
  session.status :: status_writes (run m lib bits session ops).2

/-- The status changes of the specification: `ISSL_NONE` to
`ISSL_HANDSHAKING`, `ISSL_HANDSHAKING` to `ISSL_OPEN`, `ISSL_HANDSHAKING` to
`ISSL_NONE`, `ISSL_OPEN` to `ISSL_NONE`. -/
def spec_change : issl_status → issl_status → Bool
  | .ISSL_NONE, .ISSL_HANDSHAKING => true
  | .ISSL_HANDSHAKING, .ISSL_OPEN => true
  | .ISSL_HANDSHAKING, .ISSL_NONE => true
  | .ISSL_OPEN, .ISSL_NONE => true
  | _, _ => false

/-- The status changes the code makes: those of `spec_change`, and
`ISSL_NONE` to `ISSL_OPEN`. -/
def code_change (a b : issl_status) : Bool :=
  spec_change a b || (a == .ISSL_NONE && b == .ISSL_OPEN)

/-- Starting from status `a`, every write of `ws` either rewrites the current
value or makes a change allowed by `R`, and the status after the last write is
`b`. -/
def Writes (R : issl_status → issl_status → Bool) :
    issl_status → List issl_status → issl_status → Prop
  | a, [], b => a = b
  | a, w :: ws, b => (a == w || R a w) = true ∧ Writes R w ws b

/-- The operation is a read, a write or a close (not an accept or connect). -/
def Op.on_established : Op → Bool
  | .accept _ => false
  | .connect _ => false
  | .close => true
  | .read _ _ => true
  | .write _ _ => true

/-! ## Concrete values for the examples -/

/-- An object table with the names of the NIDs used in the examples:
6 `rsaEncryption`, 8 `md5WithRSAEncryption`, 408 `id-ecPublicKey`,
668 `sha256WithRSAEncryption`. -/
def example_lib : Lib :=
  { OBJ_nid2ln := fun n =>
      if n = 6 then "rsaEncryption" else if n = 8 then "md5WithRSAEncryption"
      else if n = 668 then "sha256WithRSAEncryption"
      else if n = 408 then "id-ecPublicKey" else "undefined"
    OBJ_nid2sn := fun n =>
      if n = 6 then "rsaEncryption" else if n = 8 then "RSA-MD5"
      else if n = 668 then "RSA-SHA256"
      else if n = 408 then "id-ecPublicKey" else "UNDEF"
    X509_verify_cert_error_string := fun _ => "certificate verify error"
    hex := fun _ => "00"
    new_ssl_cert :=
      { dn := "", issuer := "", error := "", fingerprint := ""
        trusted := false, invalid := true, unknownsigner := true } }

/-- The event-mask bits with the values of the socket engine header. -/
def example_bits : EventMaskBits :=
  { FD_WANT_NO_READ := 0x1, FD_WANT_POLL_READ := 0x2, FD_WANT_NO_WRITE := 0x10
    FD_WANT_SINGLE_WRITE := 0x100, FD_ADD_TRIAL_READ := 0x1000, FD_ADD_TRIAL_WRITE := 0x2000 }

/-- A module without key-size policy and without signature-algorithm list. -/
def example_module : ModuleSSLOpenSSL :=
  { hash := 0, keytypes := [], keysizes := [], sigalgs := [] }

/-- The session a default-constructed `issl_session` holds (lines 95-101). -/
def fresh_session : issl_session :=
  { sess := none, status := .ISSL_NONE, cert := none, chain := []
    outbound := false, data_to_write := false }

/-- An environment in which every library call reports "nothing": no handle,
result 0 everywhere, no peer certificate. -/
def quiet_env : Env :=
  { SelfSigned := false, Time := 0, SSL_new := none, SSL_set_fd := 0
    SSL_connect := 0, SSL_accept := 0, handshake_error := 0
    peer :=
      { SSL_get_peer_certificate := none, SSL_get_verify_result := 0
        SSL_get_peer_cert_chain := none }
    SSL_read := 0, read_buffer := [], SSL_pending := 0, SSL_write := 0
    io_error := 0, handshake_start := false }

/-- An accept in which `SSL_new` and `SSL_set_fd` succeed and `SSL_accept`
reports completion at once. -/
def accept_complete_env : Env :=
  { quiet_env with SSL_new := some 1, SSL_set_fd := 1, SSL_accept := 1 }

/-- The text `sub` occurs in the text `s`. -/
def mentions (s sub : String) : Prop :=
  sub.data <:+: s.data

instance (s sub : String) : Decidable (mentions s sub) :=
  inferInstanceAs (Decidable (sub.data <:+: s.data))

/-- A session with a handle, as accept leaves it when the first handshake step
asks for more input. -/
def handshaking_session : issl_session :=
  { sess := some 1, status := .ISSL_HANDSHAKING, cert := none, chain := []
    outbound := false, data_to_write := false }

/-- A handshake step of an inbound session in which `SSL_accept` fails with
`SSL_ERROR_WANT_READ`. -/
def want_read_env : Env :=
  { quiet_env with SSL_accept := -1, handshake_error := 2 }

/-- A handshake step of an inbound session in which `SSL_accept` reports
completion and the peer has presented no certificate. -/
def complete_env : Env :=
  { quiet_env with SSL_accept := 1 }

/-- The carriage-return character. -/
def CR : Char := Char.ofNat 13

/-- The line-feed character. -/
def LF : Char := Char.ofNat 10

/-- The text contains a carriage return or a line feed. -/
def has_line_break (s : String) : Prop :=
  CR ∈ s.data ∨ LF ∈ s.data

instance (s : String) : Decidable (has_line_break s) :=
  inferInstanceAs (Decidable (CR ∈ s.data ∨ LF ∈ s.data))

/-- The error text of line 1047 for a key of type `t` with `bits` bits where
at least `min` bits are required. -/
def key_size_error (lib : Lib) (t min bits : Int) : String :=
  "'" ++ lib.OBJ_nid2ln t ++ "' key must be >= '" ++ toString min ++ "' bits, was '"
    ++ toString bits ++ "'"

/-- The test of line 979 on the validity bounds of a certificate. -/
def validity_test_fails (cert : X509) (now : Int) : Prop :=
  ASN1_UTCTIME_cmp_time_t cert.notAfter now = -1 ∨ ASN1_UTCTIME_cmp_time_t cert.notBefore now = 0

instance (cert : X509) (now : Int) : Decidable (validity_test_fails cert now) :=
  inferInstanceAs (Decidable (_ ∨ _))

/-- The key-size policy of the examples: RSA keys (`rsaEncryption`, NID 6) of
at least 2048 bits. -/
def rsa_2048_module : ModuleSSLOpenSSL :=
  { hash := 0, keytypes := [6], keysizes := [2048], sigalgs := [] }

/-- A certificate with an RSA key of `bits` bits, signed with
`sha256WithRSAEncryption`, valid from time 0 to time `notAfter`. -/
def rsa_cert (bits notAfter : Int) : X509 :=
  { subject_name := "/CN=peer", issuer_name := "/CN=issuer"
    pubkey := some { id := 6, bits := bits }, signature_nid := 668
    digest := fun _ => some [0], notBefore := 0, notAfter := notAfter }

/-- The error text of line 1083 for a certificate signed with `nid` when
the allowed algorithms are `sigalgs`: the short name of the certificate's
algorithm, then the short names of the allowed algorithms in list order,
separated by commas. -/
def sigalg_error (lib : Lib) (nid : Int) (sigalgs : List Int) : String :=
  "Invalid signature algorithm; got '" ++ lib.OBJ_nid2sn nid ++ "' expected one of '"
    ++ String.intercalate "," (sigalgs.map lib.OBJ_nid2sn) ++ "'"

/-- A module that only allows the signature algorithm
`sha256WithRSAEncryption` (NID 668). -/
def sha256_module : ModuleSSLOpenSSL :=
  { hash := 0, keytypes := [], keysizes := [], sigalgs := [668] }

/-- A certificate signed with `md5WithRSAEncryption` (NID 8). -/
def md5_cert : X509 :=
  { subject_name := "/CN=peer", issuer_name := "/CN=issuer"
    pubkey := some { id := 6, bits := 2048 }, signature_nid := 8
    digest := fun _ => some [0], notBefore := 0, notAfter := 1000 }

/-- An established session with a handle and nothing queued. -/
def open_session : issl_session :=
  { sess := some 1, status := .ISSL_OPEN, cert := none, chain := []
    outbound := false, data_to_write := false }

/-- A plaintext buffer of 10000 bytes. -/
def buffer_10000 : Bytes := List.replicate 10000 0

/-- A write in which `SSL_write` accepts 4000 bytes. -/
def write_4000_env : Env :=
  { quiet_env with SSL_write := 4000 }

/-- A write in which `SSL_write` accepts 6000 bytes. -/
def write_6000_env : Env :=
  { quiet_env with SSL_write := 6000 }

/-- A read in which `SSL_read` delivers 5 bytes. -/
def read_5_env : Env :=
  { quiet_env with SSL_read := 5, read_buffer := [104, 101, 108, 108, 111] }

/-- A session whose status is not `ISSL_NONE` has a handle. -/
def handle_when_active (s : issl_session) : Prop :=
  s.status ≠ .ISSL_NONE → s.sess ≠ none

/-- A handshake step of an inbound session in which `SSL_accept` fails with
an error that is neither want-read nor want-write (here `SSL_ERROR_SSL`, 1). -/
def fatal_env : Env :=
  { quiet_env with SSL_accept := -1, handshake_error := 1 }

/-- A module whose array `sessions` has two default-constructed entries. -/
def two_session_module : ModuleSSLOpenSSL :=
  { hash := 0, keytypes := [], keysizes := [], sigalgs := []
    sessions := [fresh_session, fresh_session] }

/-- A certificate with a 2048 bit RSA key, signed with
`sha256WithRSAEncryption`, valid from `notBefore` to `notAfter`. -/
def window_cert (notBefore notAfter : Int) : X509 :=
  { subject_name := "/CN=peer", issuer_name := "/CN=issuer"
    pubkey := some { id := 6, bits := 2048 }, signature_nid := 668
    digest := fun _ => some [0], notBefore := notBefore, notAfter := notAfter }

/-- An accept or connect in which `SSL_new` yields handle 1 and `SSL_set_fd`
fails. -/
def set_fd_fails_env : Env :=
  { quiet_env with SSL_new := some 1, SSL_set_fd := 0 }

/-- The policy of the examples for both checks: RSA keys of at least 2048
bits, signatures with `sha256WithRSAEncryption` only. -/
def strict_module : ModuleSSLOpenSSL :=
  { hash := 0, keytypes := [6], keysizes := [2048], sigalgs := [668] }

/-- A certificate with a key of type `key_type` and `bits` bits, signed with
`md5WithRSAEncryption`. -/
def md5_cert_with_key (key_type bits : Int) : X509 :=
  { subject_name := "/CN=peer", issuer_name := "/CN=issuer"
    pubkey := some { id := key_type, bits := bits }, signature_nid := 8
    digest := fun _ => some [0], notBefore := 0, notAfter := 1000 }

/-- The error text of line 1060 for a key of type `t` that is not in the
policy. -/
def key_type_error (m : ModuleSSLOpenSSL) (lib : Lib) (t : Int) : String :=
  "Peer key type '" ++ lib.OBJ_nid2ln t
    ++ "' does not match expected peer key type:size pairs '"
    ++ pop_back (expected_keys lib m.keytypes m.keysizes "") ++ "'"

/-- The record of the leaf certificate `cert` when the chain walk of
`VerifyChain` starts: lines 992-1005. -/
def leaf_record (m : ModuleSSLOpenSSL) (lib : Lib) (e : Env) (cert : X509) : ssl_cert :=
  let x509_ret := e.peer.SSL_get_verify_result
  let certinfo := { lib.new_ssl_cert with invalid := decide (x509_ret ≠ X509_V_OK) }
  let certinfo :=
    if certinfo.invalid then
      { certinfo with error := lib.X509_verify_cert_error_string x509_ret }
    else certinfo
  VerifyCertificate m lib e.SelfSigned e.Time certinfo cert

/-- The record of a chain member: line 1016 on a new record. -/
def chain_record (m : ModuleSSLOpenSSL) (lib : Lib) (e : Env) (x : X509) : ssl_cert :=
  VerifyCertificate m lib e.SelfSigned e.Time lib.new_ssl_cert x

/-- The texts "Cert chain #k: e" for the records of a chain, the first of
which has position `k`: one text for each record whose error `e` is not
empty, in chain order. -/
def chain_messages : Nat → List ssl_cert → List String
  | _, [] => []
  | k, c :: cs =>
    (if c.error ≠ "" then ["Cert chain #" ++ toString k ++ ": " ++ c.error] else [])
      ++ chain_messages (k + 1) cs

/-- The text `acc` after the parts `ps` have been appended the way lines
1019-1024 append a chain error: a separator first when the text so far is not
empty. -/
def append_parts (acc : String) : List String → String
  | [] => acc
  | p :: ps => append_parts ((if acc ≠ "" then acc ++ "\n\t" else acc) ++ p) ps

/-- A completed handshake in which the peer presented a leaf with a 1024 bit
RSA key and a chain of a 4096 bit and a 1024 bit RSA certificate, at time
500. -/
def chain_env : Env :=
  { quiet_env with
    Time := 500, SSL_accept := 1
    peer :=
      { SSL_get_peer_certificate := some (rsa_cert 1024 1000)
        SSL_get_verify_result := 0
        SSL_get_peer_cert_chain := some [rsa_cert 4096 1000, rsa_cert 1024 1000] } }

/-! ## Theorems -/

/-! ### Status changes -/

theorem status_writes_append (xs ys : List Effect) :
    status_writes (xs ++ ys) = status_writes xs ++ status_writes ys := by
  induction xs with
  | nil => rfl
  | cons x xs ih => cases x <;> simp [status_writes, ih]

theorem Writes.trans {R : issl_status → issl_status → Bool} {a b c : issl_status}
    {ws ws2 : List issl_status} (h1 : Writes R a ws b) (h2 : Writes R b ws2 c) :
    Writes R a (ws ++ ws2) c := by
  induction ws generalizing a with
  | nil =>
    simp only [Writes] at h1
    subst h1
    simpa using h2
  | cons w ws ih =>
    simp only [Writes] at h1
    simp only [List.cons_append, Writes]
    exact ⟨h1.1, ih h1.2⟩

theorem Writes.chain {R : issl_status → issl_status → Bool} {a b : issl_status}
    {ws : List issl_status} (h : Writes R a ws b) :
    List.Chain (fun x y => (x == y || R x y) = true) a ws := by
  induction ws generalizing a with
  | nil => exact List.Chain.nil
  | cons w ws ih =>
    simp only [Writes] at h
    exact List.Chain.cons h.1 (ih h.2)

theorem Writes.code {a b : issl_status} {ws : List issl_status}
    (h : Writes spec_change a ws b) : Writes code_change a ws b := by
  induction ws generalizing a with
  | nil => exact h
  | cons w ws ih =>
    simp only [Writes] at h ⊢
    refine ⟨?_, ih h.2⟩
    have h1 := h.1
    simp only [code_change, Bool.or_eq_true] at h1 ⊢
    rcases h1 with h1 | h1
    · exact Or.inl h1
    · exact Or.inr (Or.inl h1)

theorem VerifyChain_status (m : ModuleSSLOpenSSL) (lib : Lib) (e : Env) (s : issl_session)
    (user : Bool) : (VerifyChain m lib e s user).status = s.status := by
  unfold VerifyChain
  split
  · rfl
  · split
    · rfl
    · split <;> rfl

theorem VerifyChain_sess (m : ModuleSSLOpenSSL) (lib : Lib) (e : Env) (s : issl_session)
    (user : Bool) : (VerifyChain m lib e s user).sess = s.sess := by
  unfold VerifyChain
  split
  · rfl
  · split
    · rfl
    · split <;> rfl

theorem Handshake_writes_resumed (m : ModuleSSLOpenSSL) (lib : Lib) (bits : EventMaskBits)
    (e : Env) (s : issl_session) (h : s.status = .ISSL_HANDSHAKING) :
    Writes spec_change s.status (status_writes (Handshake m lib bits e s).effects)
      (Handshake m lib bits e s).session.status := by
  unfold Handshake
  simp only [h]
  split_ifs <;>
    simp [status_writes, Writes, CloseSession, spec_change, VerifyChain_status] <;>
    (try split) <;> simp [status_writes, Writes, spec_change]

theorem Handshake_writes_first (m : ModuleSSLOpenSSL) (lib : Lib) (bits : EventMaskBits)
    (e : Env) (s : issl_session) (h : s.status = .ISSL_NONE) :
    Writes code_change s.status (status_writes (Handshake m lib bits e s).effects)
      (Handshake m lib bits e s).session.status := by
  unfold Handshake
  simp only [h]
  split_ifs <;>
    simp [status_writes, Writes, CloseSession, code_change, spec_change, VerifyChain_status] <;>
    (try split) <;> simp [status_writes, Writes, code_change, spec_change]

theorem CloseSession_writes (s : issl_session) :
    Writes spec_change s.status (status_writes (CloseSession s).effects)
      (CloseSession s).session.status := by
  cases hs : s.status <;> cases hh : s.sess <;>
    simp [CloseSession, hh, status_writes, Writes, spec_change]

theorem read_open_writes (bits : EventMaskBits) (e : Env) (s : issl_session) (recvq : Bytes) :
    Writes spec_change s.status (status_writes (read_open bits e s recvq).effects)
      (read_open bits e s recvq).session.status := by
  unfold read_open SSLInfoCallback CheckRenego
  cases hs : s.status <;> cases hh : s.sess <;> cases hst : e.handshake_start <;>
    simp [CloseSession, status_writes, Writes, spec_change, hh, hs] <;>
    (try split_ifs) <;>
    (try simp [CloseSession, status_writes, status_writes_append, Writes, spec_change, hh, hs])

theorem write_open_writes (bits : EventMaskBits) (e : Env) (s : issl_session) (buffer : Bytes) :
    Writes spec_change s.status (status_writes (write_open bits e s buffer).effects)
      (write_open bits e s buffer).session.status := by
  unfold write_open SSLInfoCallback CheckRenego
  cases hs : s.status <;> cases hh : s.sess <;> cases hst : e.handshake_start <;>
    simp [CloseSession, status_writes, Writes, spec_change, hh, hs] <;>
    (try split_ifs) <;>
    (try simp [CloseSession, status_writes, status_writes_append, Writes, spec_change, hh, hs])

theorem OnStreamSocketAccept_writes (m : ModuleSSLOpenSSL) (lib : Lib) (bits : EventMaskBits)
    (e : Env) (s : issl_session) :
    Writes code_change s.status (status_writes (OnStreamSocketAccept m lib bits e s).effects)
      (OnStreamSocketAccept m lib bits e s).session.status := by
  have first : (s.status == issl_status.ISSL_NONE
      || code_change s.status issl_status.ISSL_NONE) = true := by
    cases s.status <;> simp [code_change, spec_change]
  unfold OnStreamSocketAccept
  simp only []
  split_ifs
  · simp [status_writes, Writes, first]
  · simp [status_writes, Writes, first]
  · simp only [status_writes, Writes]
    refine ⟨first, ?_⟩
    exact Handshake_writes_first m lib bits e
      { s with sess := e.SSL_new, status := .ISSL_NONE, outbound := false, data_to_write := false }
      rfl

theorem OnStreamSocketConnect_writes (m : ModuleSSLOpenSSL) (lib : Lib) (bits : EventMaskBits)
    (e : Env) (s : issl_session) :
    Writes code_change s.status (status_writes (OnStreamSocketConnect m lib bits e s).effects)
      (OnStreamSocketConnect m lib bits e s).session.status := by
  have first : (s.status == issl_status.ISSL_NONE
      || code_change s.status issl_status.ISSL_NONE) = true := by
    cases s.status <;> simp [code_change, spec_change]
  unfold OnStreamSocketConnect
  simp only []
  split_ifs
  · simp [status_writes, Writes, first]
  · simp [status_writes, Writes, first]
  · simp only [status_writes, Writes]
    refine ⟨first, ?_⟩
    exact Handshake_writes_first m lib bits e
      { s with sess := e.SSL_new, status := .ISSL_NONE, outbound := true, data_to_write := false }
      rfl

theorem OnStreamSocketRead_writes (m : ModuleSSLOpenSSL) (lib : Lib) (bits : EventMaskBits)
    (e : Env) (s : issl_session) (recvq : Bytes) :
    Writes spec_change s.status (status_writes (OnStreamSocketRead m lib bits e s recvq).effects)
      (OnStreamSocketRead m lib bits e s recvq).session.status := by
  unfold OnStreamSocketRead
  simp only []
  by_cases h1 : s.sess = none
  · rw [if_pos h1]
    exact CloseSession_writes s
  · rw [if_neg h1]
    by_cases h2 : s.status = .ISSL_HANDSHAKING
    · rw [if_pos h2]
      have hh := Handshake_writes_resumed m lib bits e s h2
      by_cases h3 : (Handshake m lib bits e s).ret = false
      · rw [if_pos h3]
        exact hh
      · rw [if_neg h3]
        simp only [status_writes_append]
        exact Writes.trans hh (read_open_writes bits e _ recvq)
    · rw [if_neg h2]
      exact read_open_writes bits e s recvq

theorem OnStreamSocketWrite_writes (m : ModuleSSLOpenSSL) (lib : Lib) (bits : EventMaskBits)
    (e : Env) (s : issl_session) (buffer : Bytes) :
    Writes spec_change s.status (status_writes (OnStreamSocketWrite m lib bits e s buffer).effects)
      (OnStreamSocketWrite m lib bits e s buffer).session.status := by
  unfold OnStreamSocketWrite
  simp only []
  by_cases h1 : s.sess = none
  · rw [if_pos h1]
    exact CloseSession_writes s
  · rw [if_neg h1]
    by_cases h2 : s.status = .ISSL_HANDSHAKING
    · rw [if_pos h2]
      have hh := Handshake_writes_resumed m lib bits e { s with data_to_write := true } h2
      by_cases h3 : (Handshake m lib bits e { s with data_to_write := true }).ret = false
      · rw [if_pos h3]
        exact hh
      · rw [if_neg h3]
        simp only [status_writes_append]
        exact Writes.trans hh (write_open_writes bits e _ buffer)
    · rw [if_neg h2]
      exact write_open_writes bits e { s with data_to_write := true } buffer

theorem Op.apply_writes_established (m : ModuleSSLOpenSSL) (lib : Lib) (bits : EventMaskBits)
    (s : issl_session) (op : Op) (h : op.on_established = true) :
    Writes spec_change s.status (status_writes (Op.apply m lib bits s op).2)
      (Op.apply m lib bits s op).1.status := by
  cases op with
  | accept e => simp [Op.on_established] at h
  | connect e => simp [Op.on_established] at h
  | close => exact CloseSession_writes s
  | read e recvq => exact OnStreamSocketRead_writes m lib bits e s recvq
  | write e buffer => exact OnStreamSocketWrite_writes m lib bits e s buffer

theorem Op.apply_writes (m : ModuleSSLOpenSSL) (lib : Lib) (bits : EventMaskBits)
    (s : issl_session) (op : Op) :
    Writes code_change s.status (status_writes (Op.apply m lib bits s op).2)
      (Op.apply m lib bits s op).1.status := by
  cases op with
  | accept e => exact OnStreamSocketAccept_writes m lib bits e s
  | connect e => exact OnStreamSocketConnect_writes m lib bits e s
  | close => exact (CloseSession_writes s).code
  | read e recvq => exact (OnStreamSocketRead_writes m lib bits e s recvq).code
  | write e buffer => exact (OnStreamSocketWrite_writes m lib bits e s buffer).code

theorem run_writes (m : ModuleSSLOpenSSL) (lib : Lib) (bits : EventMaskBits)
    (s : issl_session) (ops : List Op) :
    Writes code_change s.status (status_writes (run m lib bits s ops).2)
      (run m lib bits s ops).1.status := by
  induction ops generalizing s with
  | nil => simp [run, status_writes, Writes]
  | cons op ops ih =>
    simp only [run, status_writes_append]
    exact Writes.trans (Op.apply_writes m lib bits s op) (ih _)

/-- C1, as amended: over every sequence of accept, connect, close, read and
write operations on a session, with any results of the library calls, two
consecutive values of `session->status` are either equal or one of the changes
`ISSL_NONE` to `ISSL_HANDSHAKING`, `ISSL_NONE` to `ISSL_OPEN`,
`ISSL_HANDSHAKING` to `ISSL_OPEN`, `ISSL_HANDSHAKING` to `ISSL_NONE`,
`ISSL_OPEN` to `ISSL_NONE`. The status is never written from `ISSL_OPEN` to
`ISSL_HANDSHAKING`, and a read, write or close, from whatever session state,
makes only the four changes of the specification: the change from
`ISSL_NONE` to `ISSL_OPEN` is made by accept and connect alone. -/
theorem C1_status_changes (m : ModuleSSLOpenSSL) (lib : Lib) (bits : EventMaskBits)
    (s : issl_session) (ops : List Op) :
    List.Chain' (fun a b => (a == b || code_change a b) = true) (status_trace m lib bits s ops) ∧
    ¬ [issl_status.ISSL_OPEN, issl_status.ISSL_HANDSHAKING] <:+: status_trace m lib bits s ops ∧
    (∀ (op : Op) (s0 : issl_session), op.on_established = true →
      List.Chain' (fun a b => (a == b || spec_change a b) = true)
        (status_trace m lib bits s0 [op])) := by
  have hc : List.Chain' (fun a b => (a == b || code_change a b) = true)
      (status_trace m lib bits s ops) := by
    unfold status_trace
    exact (run_writes m lib bits s ops).chain
  refine ⟨hc, ?_, ?_⟩
  · intro hinf
    have h2 := hc.infix hinf
    simp [code_change, spec_change] at h2
  · intro op s0 hop
    unfold status_trace
    have h := (Op.apply_writes_established m lib bits s0 op hop).chain
    simpa [run] using h

/-- C1, as stated, fails: when a session is accepted and `SSL_accept` reports
completion in that first step, the status is written from `ISSL_NONE` to
`ISSL_OPEN` directly, which is none of the four changes of the claim. -/
theorem C1_counterexample :
    status_trace example_module example_lib example_bits fresh_session
        [Op.accept accept_complete_env]
      = [.ISSL_NONE, .ISSL_NONE, .ISSL_OPEN] ∧
    ¬ List.Chain' (fun a b => (a == b || spec_change a b) = true)
      (status_trace example_module example_lib example_bits fresh_session
        [Op.accept accept_complete_env]) := by
  have h : status_trace example_module example_lib example_bits fresh_session
      [Op.accept accept_complete_env] = [.ISSL_NONE, .ISSL_NONE, .ISSL_OPEN] := by
    simp [status_trace, run, Op.apply, OnStreamSocketAccept, Handshake, accept_complete_env,
      quiet_env, fresh_session, status_writes]
  refine ⟨h, ?_⟩
  rw [h]
  simp [spec_change]

/-! ### Sessions in use have a handle -/

theorem CloseSession_active (s : issl_session) : handle_when_active (CloseSession s).session := by
  simp [handle_when_active, CloseSession]

theorem Handshake_active (m : ModuleSSLOpenSSL) (lib : Lib) (bits : EventMaskBits) (e : Env)
    (s : issl_session) (h : s.sess ≠ none) :
    handle_when_active (Handshake m lib bits e s).session := by
  intro _
  unfold Handshake
  simp only []
  split_ifs <;> first
    | exact h
    | (simp only [VerifyChain_sess]; exact h)
    | (exfalso; simp_all [Handshake, CloseSession])

theorem read_open_active (bits : EventMaskBits) (e : Env) (s : issl_session) (recvq : Bytes)
    (h : handle_when_active s) : handle_when_active (read_open bits e s recvq).session := by
  by_cases hs : s.status = .ISSL_OPEN
  · have hne : s.sess ≠ none := h (by simp [hs])
    unfold read_open SSLInfoCallback CheckRenego
    cases hst : e.handshake_start <;>
      (simp [CloseSession, handle_when_active, hs]
       try (split_ifs <;> simp [CloseSession, hs, hne]))
  · unfold read_open
    rw [if_neg hs]
    exact h

theorem write_open_active (bits : EventMaskBits) (e : Env) (s : issl_session) (buffer : Bytes)
    (h : handle_when_active s) : handle_when_active (write_open bits e s buffer).session := by
  by_cases hs : s.status = .ISSL_OPEN
  · have hne : s.sess ≠ none := h (by simp [hs])
    unfold write_open SSLInfoCallback CheckRenego
    cases hst : e.handshake_start <;>
      (simp [CloseSession, handle_when_active, hs]
       try (split_ifs <;> simp [CloseSession, hs, hne]))
  · unfold write_open
    rw [if_neg hs]
    exact h

theorem Op.apply_active (m : ModuleSSLOpenSSL) (lib : Lib) (bits : EventMaskBits)
    (s : issl_session) (op : Op) (h : handle_when_active s) :
    handle_when_active (Op.apply m lib bits s op).1 := by
  cases op with
  | accept e =>
    simp only [Op.apply, OnStreamSocketAccept]
    split_ifs with h1 h2
    · simp [handle_when_active]
    · simp [handle_when_active]
    · exact Handshake_active m lib bits e _ h1
  | connect e =>
    simp only [Op.apply, OnStreamSocketConnect]
    split_ifs with h1 h2
    · simp [handle_when_active]
    · simp [handle_when_active]
    · exact Handshake_active m lib bits e _ h1
  | close => exact CloseSession_active s
  | read e recvq =>
    simp only [Op.apply, OnStreamSocketRead]
    by_cases h1 : s.sess = none
    · rw [if_pos h1]
      exact CloseSession_active s
    · rw [if_neg h1]
      by_cases h2 : s.status = .ISSL_HANDSHAKING
      · rw [if_pos h2]
        have hh := Handshake_active m lib bits e s h1
        by_cases h3 : (Handshake m lib bits e s).ret = false
        · rw [if_pos h3]
          exact hh
        · rw [if_neg h3]
          exact read_open_active bits e _ recvq hh
      · rw [if_neg h2]
        exact read_open_active bits e s recvq h
  | write e buffer =>
    simp only [Op.apply, OnStreamSocketWrite]
    by_cases h1 : s.sess = none
    · rw [if_pos h1]
      exact CloseSession_active s
    · rw [if_neg h1]
      by_cases h2 : s.status = .ISSL_HANDSHAKING
      · rw [if_pos h2]
        have hh := Handshake_active m lib bits e { s with data_to_write := true } h1
        by_cases h3 : (Handshake m lib bits e { s with data_to_write := true }).ret = false
        · rw [if_pos h3]
          exact hh
        · rw [if_neg h3]
          exact write_open_active bits e _ buffer hh
      · rw [if_neg h2]
        exact write_open_active bits e { s with data_to_write := true } buffer h

/-- Starting from a default-constructed session, after every sequence of
operations a session whose status is `ISSL_HANDSHAKING` or `ISSL_OPEN` has a
handle. The theorems on open sessions below assume the handle for this
reason. -/
theorem run_handle_when_active (m : ModuleSSLOpenSSL) (lib : Lib) (bits : EventMaskBits)
    (ops : List Op) : handle_when_active (run m lib bits fresh_session ops).1 := by
  have general : ∀ (ops : List Op) (s : issl_session), handle_when_active s →
      handle_when_active (run m lib bits s ops).1 := by
    intro ops
    induction ops with
    | nil => intro s h; exact h
    | cons op ops ih =>
      intro s h
      simp only [run]
      exact ih _ (Op.apply_active m lib bits s op h)
  exact general ops fresh_session (by simp [handle_when_active, fresh_session])

/-! ### Closing a session -/

/-- C2: `CloseSession` is idempotent. After one call the session has no handle,
status `ISSL_NONE`, no leaf certificate and an empty chain; a second call
returns the same session, and issues neither `SSL_shutdown` nor `SSL_free`. -/
theorem C2_CloseSession_idempotent (s : issl_session) :
    (CloseSession (CloseSession s).session).session = (CloseSession s).session ∧
    (CloseSession s).session.sess = none ∧
    (CloseSession s).session.status = issl_status.ISSL_NONE ∧
    (CloseSession s).session.cert = none ∧
    (CloseSession s).session.chain = [] ∧
    (∀ h, Effect.SSL_shutdown h ∉ (CloseSession (CloseSession s).session).effects) ∧
    (∀ h, Effect.SSL_free h ∉ (CloseSession (CloseSession s).session).effects) := by
  simp [CloseSession]

/-! ### The handshake engine -/

/-- C3: a handshake step, of an inbound session (`SSL_accept`) or an outbound
one (`SSL_connect`), whose library call fails with `SSL_ERROR_WANT_READ`
requests the event mask `FD_WANT_POLL_READ | FD_WANT_NO_WRITE` and nothing
else, sets the status to `ISSL_HANDSHAKING` and changes nothing else of the
session, returns `true`, and never writes `ISSL_OPEN`. -/
theorem C3_handshake_want_read (m : ModuleSSLOpenSSL) (lib : Lib) (bits : EventMaskBits)
    (e : Env) (s : issl_session)
    (hret : (if s.outbound then e.SSL_connect else e.SSL_accept) < 0)
    (herr : e.handshake_error = SSL_ERROR_WANT_READ) :
    (Handshake m lib bits e s).effects =
        [Effect.ChangeEventMask (bits.FD_WANT_POLL_READ ||| bits.FD_WANT_NO_WRITE),
          Effect.status .ISSL_HANDSHAKING] ∧
    (Handshake m lib bits e s).session = { s with status := .ISSL_HANDSHAKING } ∧
    (Handshake m lib bits e s).session.status = .ISSL_HANDSHAKING ∧
    (Handshake m lib bits e s).ret = true ∧
    (Handshake m lib bits e s).session.status ≠ .ISSL_OPEN ∧
    Effect.status .ISSL_OPEN ∉ (Handshake m lib bits e s).effects := by
  unfold Handshake
  simp [hret, herr]

/-- C3, witness: an inbound session whose `SSL_accept` returns -1 with
`SSL_ERROR_WANT_READ`. -/
theorem C3_handshake_want_read_witness :
    ((if handshaking_session.outbound then want_read_env.SSL_connect
        else want_read_env.SSL_accept) < 0 ∧
      want_read_env.handshake_error = SSL_ERROR_WANT_READ) ∧
    ((Handshake example_module example_lib example_bits want_read_env
          handshaking_session).effects =
        [Effect.ChangeEventMask
            (example_bits.FD_WANT_POLL_READ ||| example_bits.FD_WANT_NO_WRITE),
          Effect.status .ISSL_HANDSHAKING] ∧
    (Handshake example_module example_lib example_bits want_read_env
          handshaking_session).session =
        { handshaking_session with status := .ISSL_HANDSHAKING } ∧
    (Handshake example_module example_lib example_bits want_read_env
          handshaking_session).session.status = .ISSL_HANDSHAKING ∧
    (Handshake example_module example_lib example_bits want_read_env
          handshaking_session).ret = true ∧
    (Handshake example_module example_lib example_bits want_read_env
          handshaking_session).session.status ≠ .ISSL_OPEN ∧
    Effect.status .ISSL_OPEN ∉
      (Handshake example_module example_lib example_bits want_read_env
          handshaking_session).effects) :=
  ⟨⟨by decide, by decide⟩,
    C3_handshake_want_read example_module example_lib example_bits want_read_env
      handshaking_session (by decide) (by decide)⟩

theorem VerifyChain_cert (m : ModuleSSLOpenSSL) (lib : Lib) (e : Env) (s : issl_session)
    (h : s.sess ≠ none) : (VerifyChain m lib e s true).cert ≠ none := by
  unfold VerifyChain
  simp only [h, false_or, Bool.true_eq_false, if_false]
  split
  · simp
  · split <;> simp

/-- C4: a handshake step on a session with a handle whose library call reports
completion (positive result) returns `true` with the session equal to the
result of `VerifyChain` with the status then set to `ISSL_OPEN`. The result of
`VerifyChain` already holds a leaf record while its status is still the one
before the step, so the record is installed before the status is set; the
status write is the first effect. When the peer presented no certificate the
record is a new record with the error "Could not get peer certificate". -/
theorem C4_handshake_complete (m : ModuleSSLOpenSSL) (lib : Lib) (bits : EventMaskBits)
    (e : Env) (s : issl_session)
    (hsess : s.sess ≠ none)
    (hret : 0 < (if s.outbound then e.SSL_connect else e.SSL_accept)) :
    (Handshake m lib bits e s).ret = true ∧
    (Handshake m lib bits e s).session.status = .ISSL_OPEN ∧
    (Handshake m lib bits e s).session.cert ≠ none ∧
    (Handshake m lib bits e s).session =
      { VerifyChain m lib e s true with status := .ISSL_OPEN } ∧
    (VerifyChain m lib e s true).cert ≠ none ∧
    (VerifyChain m lib e s true).status = s.status ∧
    (Handshake m lib bits e s).effects =
      [Effect.status .ISSL_OPEN,
        Effect.ChangeEventMask
          (bits.FD_WANT_POLL_READ ||| bits.FD_WANT_NO_WRITE ||| bits.FD_ADD_TRIAL_WRITE)] ∧
    (e.peer.SSL_get_peer_certificate.isNone = true →
      (Handshake m lib bits e s).session.cert =
          some { lib.new_ssl_cert with error := "Could not get peer certificate" } ∧
        "Could not get peer certificate" ≠ "") := by
  have hc := VerifyChain_cert m lib e s hsess
  have hn : ¬ (if s.outbound then e.SSL_connect else e.SSL_accept) < 0 := by omega
  unfold Handshake
  simp only [hn, hret, if_true, if_false, gt_iff_lt]
  refine ⟨trivial, trivial, hc, trivial, hc, VerifyChain_status m lib e s true, trivial, ?_⟩
  intro hp
  refine ⟨?_, by decide⟩
  unfold VerifyChain
  simp only [hsess, false_or, Bool.true_eq_false, if_false]
  cases hpc : e.peer.SSL_get_peer_certificate with
  | none => rfl
  | some c => simp [hpc] at hp

/-- C4, witness: an inbound session with handle 1 whose `SSL_accept` returns 1
while the peer has presented no certificate. -/
theorem C4_handshake_complete_witness :
    (handshaking_session.sess ≠ none ∧
      0 < (if handshaking_session.outbound then complete_env.SSL_connect
        else complete_env.SSL_accept)) ∧
    ((Handshake example_module example_lib example_bits complete_env handshaking_session).ret
        = true ∧
    (Handshake example_module example_lib example_bits complete_env
        handshaking_session).session.status = .ISSL_OPEN ∧
    (Handshake example_module example_lib example_bits complete_env
        handshaking_session).session.cert ≠ none ∧
    (Handshake example_module example_lib example_bits complete_env handshaking_session).session =
      { VerifyChain example_module example_lib complete_env handshaking_session true with
        status := .ISSL_OPEN } ∧
    (VerifyChain example_module example_lib complete_env handshaking_session true).cert ≠ none ∧
    (VerifyChain example_module example_lib complete_env handshaking_session true).status
      = handshaking_session.status ∧
    (Handshake example_module example_lib example_bits complete_env handshaking_session).effects =
      [Effect.status .ISSL_OPEN,
        Effect.ChangeEventMask
          (example_bits.FD_WANT_POLL_READ ||| example_bits.FD_WANT_NO_WRITE
            ||| example_bits.FD_ADD_TRIAL_WRITE)] ∧
    (complete_env.peer.SSL_get_peer_certificate.isNone = true →
      (Handshake example_module example_lib example_bits complete_env
          handshaking_session).session.cert =
          some { example_lib.new_ssl_cert with error := "Could not get peer certificate" } ∧
        "Could not get peer certificate" ≠ "")) :=
  ⟨⟨by decide, by decide⟩,
    C4_handshake_complete example_module example_lib example_bits complete_env
      handshaking_session (by decide) (by decide)⟩

/-! ### The certificate verifier -/

theorem find_first_of_CRLF (s : String) : find_first_of s CRLF ≠ none ↔ has_line_break s := by
  unfold find_first_of has_line_break
  rw [Ne, List.findIdx?_eq_none_iff]
  simp only [CRLF, CR, LF, List.contains_eq_any_beq, List.any_cons, List.any_nil, Bool.or_false,
    Bool.or_eq_false_iff, beq_eq_false_iff_ne, ne_eq, not_forall]
  constructor
  · rintro ⟨c, hc, h⟩
    by_cases h1 : c = Char.ofNat 13
    · left
      rw [← h1]
      exact hc
    · right
      by_cases h2 : c = Char.ofNat 10
      · rw [← h2]
        exact hc
      · exact absurd ⟨h1, h2⟩ h
  · rintro (h | h)
    · exact ⟨_, h, by simp⟩
    · exact ⟨_, h, by simp⟩

/-- C5: when the verification callback has seen the error
`X509_V_ERR_DEPTH_ZERO_SELF_SIGNED_CERT` it sets the flag `SelfSigned`, and
with the flag set `VerifyCertificate` yields a record with `unknownsigner`
true and `trusted` false, for every certificate, policy, time and record it
starts from. -/
theorem C5_self_signed_unknown_signer (m : ModuleSSLOpenSSL) (lib : Lib) (now : Int)
    (certinfo : ssl_cert) (cert : X509) (preverify_ok : Int) :
    (OnVerify preverify_ok X509_V_ERR_DEPTH_ZERO_SELF_SIGNED_CERT).1 = true ∧
    (VerifyCertificate m lib true now certinfo cert).unknownsigner = true ∧
    (VerifyCertificate m lib true now certinfo cert).trusted = false := by
  refine ⟨by simp [OnVerify], ?_, ?_⟩ <;>
  · unfold VerifyCertificate
    cases cert.digest m.hash <;> simp only [Bool.not_true, Bool.false_eq_true, if_false] <;>
      split_ifs <;> rfl

/-- C6: the fields `dn` and `issuer` of the record that `VerifyCertificate`
yields contain neither a carriage return nor a line feed: each is the empty
text when the one-line name contains one of the two characters, and the
one-line name itself otherwise. -/
theorem C6_names_without_line_breaks (m : ModuleSSLOpenSSL) (lib : Lib) (SelfSigned : Bool)
    (now : Int) (certinfo : ssl_cert) (cert : X509) :
    (VerifyCertificate m lib SelfSigned now certinfo cert).dn =
      (if has_line_break cert.subject_name then "" else cert.subject_name) ∧
    (VerifyCertificate m lib SelfSigned now certinfo cert).issuer =
      (if has_line_break cert.issuer_name then "" else cert.issuer_name) ∧
    ¬ has_line_break (VerifyCertificate m lib SelfSigned now certinfo cert).dn ∧
    ¬ has_line_break (VerifyCertificate m lib SelfSigned now certinfo cert).issuer := by
  have hdn : (VerifyCertificate m lib SelfSigned now certinfo cert).dn =
      (if has_line_break cert.subject_name then "" else cert.subject_name) := by
    unfold VerifyCertificate
    cases cert.digest m.hash <;> simp only [find_first_of_CRLF] <;> split_ifs <;> rfl
  have hissuer : (VerifyCertificate m lib SelfSigned now certinfo cert).issuer =
      (if has_line_break cert.issuer_name then "" else cert.issuer_name) := by
    unfold VerifyCertificate
    cases cert.digest m.hash <;> simp only [find_first_of_CRLF] <;> split_ifs <;> rfl
  refine ⟨hdn, hissuer, ?_, ?_⟩
  · rw [hdn]
    split_ifs with h
    · simp [has_line_break]
    · exact h
  · rw [hissuer]
    split_ifs with h
    · simp [has_line_break]
    · exact h

theorem key_loop_of_find (lib : Lib) (id bits t min : Int) :
    ∀ (keytypes keysizes : List Int),
      List.find? (fun p => p.1 == id) (List.zip keytypes keysizes) = some (t, min) →
      key_loop lib id bits keytypes keysizes =
        if bits < min then .too_short (key_size_error lib t min bits) else .key_okay := by
  intro keytypes
  induction keytypes with
  | nil => intro keysizes h; simp at h
  | cons x xs ih =>
    intro keysizes h
    cases keysizes with
    | nil => simp at h
    | cons z zs =>
      rw [List.zip_cons_cons, List.find?_cons] at h
      by_cases hx : id = x
      · subst hx
        simp only [beq_self_eq_true] at h
        injection h with h
        injection h with h1 h2
        subst h1 h2
        simp [key_loop, key_size_error]
      · have hx2 : (x == id) = false := by
          simp only [beq_eq_false_iff_ne, ne_eq]
          exact fun h => hx h.symm
        simp only [hx2] at h
        simp only [key_loop, ne_eq, hx, not_false_eq_true, if_true, List.tail_cons]
        exact ih zs h

theorem key_size_error_data (lib : Lib) (t min bits : Int) :
    (key_size_error lib t min bits).data =
      "'".data ++ ((lib.OBJ_nid2ln t).data ++ ("' key must be >= '".data ++ ((toString min).data
        ++ ("' bits, was '".data ++ ((toString bits).data ++ "'".data))))) := by
  simp [key_size_error, String.data_append, List.append_assoc]

theorem key_size_error_ne_empty (lib : Lib) (t min bits : Int) :
    key_size_error lib t min bits ≠ "" := by
  intro h
  have := congrArg String.data h
  rw [key_size_error_data] at this
  simp at this

theorem VerifyCertificate_error (m : ModuleSSLOpenSSL) (lib : Lib) (SelfSigned : Bool)
    (now : Int) (certinfo : ssl_cert) (cert : X509) :
    (VerifyCertificate m lib SelfSigned now certinfo cert).error =
      if validity_test_fails cert now then "Not activated, or expired certificate"
      else if cert.digest m.hash = none then "Out of memory generating fingerprint"
      else if VerifyCertificateStrength m lib cert ≠ "" then VerifyCertificateStrength m lib cert
      else certinfo.error := by
  unfold VerifyCertificate validity_test_fails
  cases hd : cert.digest m.hash <;> simp only [] <;> split_ifs <;> simp_all

theorem mentions_of_data (s sub : String) (pre post : List Char)
    (h : s.data = pre ++ (sub.data ++ post)) : mentions s sub :=
  ⟨pre, post, by rw [h, List.append_assoc]⟩

theorem VerifyCertificateStrength_of_find (m : ModuleSSLOpenSSL) (lib : Lib) (cert : X509)
    (k : EVP_PKEY) (min : Int) (hkey : cert.pubkey = some k)
    (hentry : List.find? (fun p => p.1 == k.id) (List.zip m.keytypes m.keysizes)
      = some (k.id, min)) :
    VerifyCertificateStrength m lib cert =
      if k.bits < min then key_size_error lib k.id min k.bits else verify_sigalg m lib cert := by
  have hne : m.keytypes ≠ [] := by
    intro h
    simp [h] at hentry
  unfold VerifyCertificateStrength
  rw [if_pos hne]
  simp only [hkey, key_loop_of_find lib k.id k.bits k.id min m.keytypes m.keysizes hentry]
  split_ifs <;> rfl

/-- C7, as amended: let the key type of the certificate match the policy entry
(type, min-bits). If the key has fewer than min-bits bits,
`VerifyCertificateStrength` reports the error of line 1047, which is non-empty
and mentions the long name of the key type, the required and the actual bit
count; the record of `VerifyCertificate` then has a non-empty error, and it is
this key-size error whenever the fingerprint is computed and the validity test
of line 979 does not fire (otherwise one of those two later errors has
replaced it). If the key has at least min-bits bits, the key-size policy
contributes no error: `VerifyCertificateStrength` reports what the
signature-algorithm check reports, and the record is the one that
`VerifyCertificate` yields without any key-size policy. -/
theorem C7_key_size_policy (m : ModuleSSLOpenSSL) (lib : Lib) (SelfSigned : Bool) (now : Int)
    (certinfo : ssl_cert) (cert : X509) (k : EVP_PKEY) (min : Int)
    (hkey : cert.pubkey = some k)
    (hentry : List.find? (fun p => p.1 == k.id) (List.zip m.keytypes m.keysizes)
      = some (k.id, min)) :
    (k.bits < min →
      VerifyCertificateStrength m lib cert = key_size_error lib k.id min k.bits ∧
      VerifyCertificateStrength m lib cert ≠ "" ∧
      mentions (VerifyCertificateStrength m lib cert) (lib.OBJ_nid2ln k.id) ∧
      mentions (VerifyCertificateStrength m lib cert) (toString min) ∧
      mentions (VerifyCertificateStrength m lib cert) (toString k.bits) ∧
      (VerifyCertificate m lib SelfSigned now certinfo cert).error ≠ "" ∧
      (¬ validity_test_fails cert now → cert.digest m.hash ≠ none →
        (VerifyCertificate m lib SelfSigned now certinfo cert).error
          = key_size_error lib k.id min k.bits)) ∧
    (min ≤ k.bits →
      VerifyCertificateStrength m lib cert = verify_sigalg m lib cert ∧
      VerifyCertificate m lib SelfSigned now certinfo cert =
        VerifyCertificate { m with keytypes := [], keysizes := [] } lib SelfSigned now
          certinfo cert) := by
  have hs := VerifyCertificateStrength_of_find m lib cert k min hkey hentry
  constructor
  · intro hlt
    rw [if_pos hlt] at hs
    have hne := key_size_error_ne_empty lib k.id min k.bits
    refine ⟨hs, by rw [hs]; exact hne, ?_, ?_, ?_, ?_, ?_⟩
    · rw [hs]
      exact mentions_of_data _ _ _ _ (key_size_error_data lib k.id min k.bits)
    · rw [hs]
      refine mentions_of_data _ _ ("'".data ++ ((lib.OBJ_nid2ln k.id).data
        ++ "' key must be >= '".data))
        ("' bits, was '".data ++ ((toString k.bits).data ++ "'".data)) ?_
      rw [key_size_error_data]
      simp only [List.append_assoc]
    · rw [hs]
      refine mentions_of_data _ _ ("'".data ++ ((lib.OBJ_nid2ln k.id).data
        ++ ("' key must be >= '".data ++ ((toString min).data ++ "' bits, was '".data))))
        "'".data ?_
      rw [key_size_error_data]
      simp only [List.append_assoc]
    · rw [VerifyCertificate_error, hs]
      split_ifs <;> first | exact hne | decide
    · intro hv hd
      rw [VerifyCertificate_error, hs, if_neg hv, if_neg hd, if_pos hne]
  · intro hge
    rw [if_neg (by omega)] at hs
    have hs2 : VerifyCertificateStrength { m with keytypes := [], keysizes := [] } lib cert
        = verify_sigalg m lib cert := by
      simp [VerifyCertificateStrength, verify_sigalg]
    refine ⟨hs, ?_⟩
    unfold VerifyCertificate
    rw [hs, hs2]

/-- C7, witness: with the policy (rsaEncryption, 2048), a 1024 bit RSA key
gives the key-size error and a 4096 bit RSA key gives none. -/
theorem C7_key_size_policy_witness :
    VerifyCertificateStrength rsa_2048_module example_lib (rsa_cert 1024 1000)
      = "'rsaEncryption' key must be >= '2048' bits, was '1024'" ∧
    (VerifyCertificate rsa_2048_module example_lib false 500 example_lib.new_ssl_cert
      (rsa_cert 1024 1000)).error = "'rsaEncryption' key must be >= '2048' bits, was '1024'" ∧
    VerifyCertificateStrength rsa_2048_module example_lib (rsa_cert 4096 1000) = "" ∧
    (VerifyCertificate rsa_2048_module example_lib false 500 example_lib.new_ssl_cert
      (rsa_cert 4096 1000)).error = "" := by
  have h1 := C7_key_size_policy rsa_2048_module example_lib false 500 example_lib.new_ssl_cert
    (rsa_cert 1024 1000) { id := 6, bits := 1024 } 2048 rfl (by decide)
  have h2 := C7_key_size_policy rsa_2048_module example_lib false 500 example_lib.new_ssl_cert
    (rsa_cert 4096 1000) { id := 6, bits := 4096 } 2048 rfl (by decide)
  have h1a := h1.1 (by decide)
  have h2a := h2.2 (by decide)
  refine ⟨?_, ?_, ?_, ?_⟩
  · rw [h1a.1]; decide
  · rw [h1a.2.2.2.2.2.2 (by decide) (by decide)]; decide
  · rw [h2a.1]; decide
  · rw [h2a.2]; decide

/-- C7, as stated, fails: with the policy (rsaEncryption, 2048), a certificate
with a 1024 bit RSA key that has also expired gets the record error "Not
activated, or expired certificate", which mentions neither the key type nor
a bit count. -/
theorem C7_counterexample :
    (rsa_cert 1024 100).pubkey = some { id := 6, bits := 1024 } ∧
    List.find? (fun p => p.1 == 6) (List.zip rsa_2048_module.keytypes rsa_2048_module.keysizes)
      = some (6, 2048) ∧
    (VerifyCertificate rsa_2048_module example_lib false 500 example_lib.new_ssl_cert
      (rsa_cert 1024 100)).error = "Not activated, or expired certificate" ∧
    ¬ mentions (VerifyCertificate rsa_2048_module example_lib false 500 example_lib.new_ssl_cert
      (rsa_cert 1024 100)).error (example_lib.OBJ_nid2ln 6) ∧
    ¬ mentions (VerifyCertificate rsa_2048_module example_lib false 500 example_lib.new_ssl_cert
      (rsa_cert 1024 100)).error (toString (2048 : Int)) ∧
    ¬ mentions (VerifyCertificate rsa_2048_module example_lib false 500 example_lib.new_ssl_cert
      (rsa_cert 1024 100)).error (toString (1024 : Int)) := by
  decide

theorem expected_sigalgs_data (lib : Lib) (l : List Int) (acc : String) :
    (expected_sigalgs lib l acc).data =
      acc.data ++ (l.map (fun a => (lib.OBJ_nid2sn a).data ++ [','])).flatten := by
  induction l generalizing acc with
  | nil => simp [expected_sigalgs]
  | cons a as ih =>
    rw [expected_sigalgs, ih]
    simp [String.data_append, List.append_assoc]

theorem intercalate_go_data (sep : String) (l : List String) (acc : String) :
    (String.intercalate.go acc sep l).data =
      acc.data ++ (l.map (fun a => sep.data ++ a.data)).flatten := by
  induction l generalizing acc with
  | nil => simp [String.intercalate.go]
  | cons a as ih =>
    rw [String.intercalate.go, ih]
    simp [String.data_append, List.append_assoc]

theorem flatten_comma_after (f : Int → List Char) (x : Int) (xs : List Int) :
    ((x :: xs).map (fun a => f a ++ [','])).flatten =
      (f x ++ (xs.map (fun a => [','] ++ f a)).flatten) ++ [','] := by
  induction xs generalizing x with
  | nil => simp
  | cons y ys ih =>
    rw [List.map_cons, List.flatten_cons, ih y]
    simp [List.append_assoc]

theorem pop_back_expected_sigalgs (lib : Lib) (l : List Int) (h : l ≠ []) :
    pop_back (expected_sigalgs lib l "") = String.intercalate "," (l.map lib.OBJ_nid2sn) := by
  cases l with
  | nil => exact absurd rfl h
  | cons a as =>
    apply String.ext
    unfold pop_back
    simp only [expected_sigalgs_data, show "".data = [] from rfl, List.nil_append]
    rw [flatten_comma_after (fun x => (lib.OBJ_nid2sn x).data) a as, List.dropLast_concat]
    simp only [List.map_cons, String.intercalate, intercalate_go_data, List.map_map,
      Function.comp_def]

theorem key_loop_too_short (lib : Lib) (id bits : Int) (err : String) :
    ∀ (keytypes keysizes : List Int),
      key_loop lib id bits keytypes keysizes = .too_short err → err ≠ "" := by
  intro keytypes
  induction keytypes with
  | nil => intro keysizes h; simp [key_loop] at h
  | cons x xs ih =>
    intro keysizes h
    rw [key_loop] at h
    split_ifs at h with h1 h2
    · exact ih _ h
    · injection h with h
      rw [← h]
      exact key_size_error_ne_empty lib x (keysizes.headD 0) bits

theorem not_found_error_ne_empty (a b : String) :
    "Peer key type '" ++ a ++ "' does not match expected peer key type:size pairs '" ++ b ++ "'"
      ≠ "" := by
  intro h
  have := congrArg String.data h
  simp [String.data_append] at this

theorem sigalg_error_ne_empty (lib : Lib) (nid : Int) (sigalgs : List Int) :
    sigalg_error lib nid sigalgs ≠ "" := by
  intro h
  have := congrArg String.data h
  simp [sigalg_error, String.data_append] at this

theorem verify_sigalg_eq (m : ModuleSSLOpenSSL) (lib : Lib) (cert : X509) (h : m.sigalgs ≠ []) :
    verify_sigalg m lib cert =
      if cert.signature_nid ∈ m.sigalgs then "" else sigalg_error lib cert.signature_nid m.sigalgs := by
  unfold verify_sigalg sigalg_error
  rw [if_pos h, pop_back_expected_sigalgs lib m.sigalgs h]
  simp only [List.contains_eq_any_beq, List.any_eq_true, beq_iff_eq]
  have hiff : (∃ x ∈ m.sigalgs, cert.signature_nid = x) ↔ cert.signature_nid ∈ m.sigalgs :=
    ⟨fun ⟨x, hx, he⟩ => he ▸ hx, fun hx => ⟨_, hx, rfl⟩⟩
  simp only [hiff]

theorem VerifyCertificateStrength_split (m : ModuleSSLOpenSSL) (lib : Lib) (cert : X509) :
    VerifyCertificateStrength m lib cert =
      if VerifyCertificateStrength { m with sigalgs := [] } lib cert ≠ "" then
        VerifyCertificateStrength { m with sigalgs := [] } lib cert
      else verify_sigalg m lib cert := by
  have hv : verify_sigalg { m with sigalgs := [] } lib cert = "" := by simp [verify_sigalg]
  unfold VerifyCertificateStrength
  simp only [hv]
  by_cases hk : m.keytypes = []
  · simp [hk]
  · simp only [ne_eq, hk, not_false_eq_true, if_true]
    cases hp : cert.pubkey with
    | none => simp
    | some k =>
      simp only []
      cases hl : key_loop lib k.id k.bits m.keytypes m.keysizes with
      | too_short err => simp [key_loop_too_short lib k.id k.bits err _ _ hl]
      | key_okay => simp
      | not_found => simp [not_found_error_ne_empty]

/-- C8: for a non-empty list of allowed signature algorithms and a certificate
that passes the key-type and key-size check (with the list emptied,
`VerifyCertificateStrength` reports no error), `VerifyCertificateStrength`
reports an error exactly when the signature algorithm of the certificate is
not in the list, and the error is then the text of line 1083: it names the
short name of the certificate's algorithm and the short names of all allowed
algorithms, in list order, separated by commas. -/
theorem C8_signature_algorithm (m : ModuleSSLOpenSSL) (lib : Lib) (cert : X509)
    (hlist : m.sigalgs ≠ [])
    (hkey : VerifyCertificateStrength { m with sigalgs := [] } lib cert = "") :
    (VerifyCertificateStrength m lib cert ≠ "" ↔ cert.signature_nid ∉ m.sigalgs) ∧
    VerifyCertificateStrength m lib cert =
      (if cert.signature_nid ∈ m.sigalgs then ""
        else "Invalid signature algorithm; got '" ++ lib.OBJ_nid2sn cert.signature_nid
          ++ "' expected one of '" ++ String.intercalate "," (m.sigalgs.map lib.OBJ_nid2sn)
          ++ "'") := by
  have h := VerifyCertificateStrength_split m lib cert
  rw [hkey, if_neg (by simp), verify_sigalg_eq m lib cert hlist] at h
  refine ⟨?_, h⟩
  rw [h]
  split_ifs with hm
  · simp [hm]
  · simp only [ne_eq, hm, not_false_eq_true, iff_true]
    exact sigalg_error_ne_empty lib _ _

/-- C8, witness: with the allow-list [sha256WithRSAEncryption] a certificate
signed with md5WithRSAEncryption is reported with an error that names its
algorithm and the allowed one. -/
theorem C8_signature_algorithm_witness :
    (sha256_module.sigalgs ≠ [] ∧
      VerifyCertificateStrength { sha256_module with sigalgs := [] } example_lib md5_cert = "") ∧
    VerifyCertificateStrength sha256_module example_lib md5_cert
      = "Invalid signature algorithm; got 'RSA-MD5' expected one of 'RSA-SHA256'" := by
  refine ⟨⟨by decide, by decide⟩, ?_⟩
  rw [(C8_signature_algorithm sha256_module example_lib md5_cert (by decide) (by decide)).2]
  decide

/-! ### The relay -/

theorem int_cast_of_lt (n : Nat) (h : n < 2 ^ 31) : int_cast n = n := by
  unfold int_cast
  norm_num at h ⊢
  omega

theorem write_open_partial (bits : EventMaskBits) (e : Env) (s : issl_session) (buffer : Bytes)
    (k : Nat) (hopen : s.status = .ISSL_OPEN) (hlen : buffer.length < 2 ^ 31)
    (hk0 : 0 < k) (hkn : k < buffer.length) (hret : e.SSL_write = k)
    (hcb : e.handshake_start = false) :
    write_open bits e s buffer =
      { session := s, effects := [Effect.ChangeEventMask bits.FD_WANT_SINGLE_WRITE]
        ret := 0, buffer := buffer.drop k } := by
  have h1 : ¬ ((k : Int) = int_cast buffer.length) := by
    rw [int_cast_of_lt _ hlen]
    omega
  have h2 : (k : Int) > 0 := by omega
  unfold write_open SSLInfoCallback CheckRenego
  simp [hopen, hcb, hret, h1, h2]

theorem write_open_full (bits : EventMaskBits) (e : Env) (s : issl_session) (buffer : Bytes)
    (hopen : s.status = .ISSL_OPEN) (hlen : buffer.length < 2 ^ 31)
    (hret : e.SSL_write = buffer.length) (hcb : e.handshake_start = false) :
    write_open bits e s buffer =
      { session := { s with data_to_write := false }
        effects :=
          [Effect.ChangeEventMask (bits.FD_WANT_POLL_READ ||| bits.FD_WANT_NO_WRITE)]
        ret := 1, buffer := buffer } := by
  have h1 : (buffer.length : Int) = int_cast buffer.length := by
    rw [int_cast_of_lt _ hlen]
  unfold write_open SSLInfoCallback CheckRenego
  simp [hopen, hcb, hret, ← h1]

/-- C9: a write on an open session (status `ISSL_OPEN`, handle present) with a
buffer of `n` bytes, `n` within the range of `int`, in which `SSL_write`
accepts `k` bytes with `0 < k < n` and no renegotiation is signalled, leaves in
the buffer the last `n - k` bytes in order, requests `FD_WANT_SINGLE_WRITE`,
keeps `data_to_write` true and returns 0. A following write with that
remainder in which `SSL_write` accepts all `n - k` bytes returns 1, clears
`data_to_write` and requests `FD_WANT_POLL_READ | FD_WANT_NO_WRITE`. -/
theorem C9_partial_write (m : ModuleSSLOpenSSL) (lib : Lib) (bits : EventMaskBits)
    (e e2 : Env) (s : issl_session) (buffer : Bytes) (k : Nat)
    (hopen : s.status = .ISSL_OPEN) (hsess : s.sess ≠ none)
    (hlen : buffer.length < 2 ^ 31) (hk0 : 0 < k) (hkn : k < buffer.length)
    (hret : e.SSL_write = k) (hcb : e.handshake_start = false)
    (hret2 : e2.SSL_write = (buffer.length - k : Nat)) (hcb2 : e2.handshake_start = false) :
    (OnStreamSocketWrite m lib bits e s buffer).buffer = buffer.drop k ∧
    (OnStreamSocketWrite m lib bits e s buffer).buffer.length = buffer.length - k ∧
    buffer = buffer.take k ++ (OnStreamSocketWrite m lib bits e s buffer).buffer ∧
    (OnStreamSocketWrite m lib bits e s buffer).effects =
      [Effect.ChangeEventMask bits.FD_WANT_SINGLE_WRITE] ∧
    (OnStreamSocketWrite m lib bits e s buffer).session.data_to_write = true ∧
    (OnStreamSocketWrite m lib bits e s buffer).session.status = .ISSL_OPEN ∧
    (OnStreamSocketWrite m lib bits e s buffer).ret = 0 ∧
    (OnStreamSocketWrite m lib bits e2 (OnStreamSocketWrite m lib bits e s buffer).session
      (OnStreamSocketWrite m lib bits e s buffer).buffer).ret = 1 ∧
    (OnStreamSocketWrite m lib bits e2 (OnStreamSocketWrite m lib bits e s buffer).session
      (OnStreamSocketWrite m lib bits e s buffer).buffer).session.data_to_write = false ∧
    (OnStreamSocketWrite m lib bits e2 (OnStreamSocketWrite m lib bits e s buffer).session
      (OnStreamSocketWrite m lib bits e s buffer).buffer).effects =
      [Effect.ChangeEventMask (bits.FD_WANT_POLL_READ ||| bits.FD_WANT_NO_WRITE)] := by
  have hne : ¬ s.status = .ISSL_HANDSHAKING := by simp [hopen]
  have first : OnStreamSocketWrite m lib bits e s buffer =
      { session := { s with data_to_write := true }
        effects := [Effect.ChangeEventMask bits.FD_WANT_SINGLE_WRITE]
        ret := 0, buffer := buffer.drop k } := by
    unfold OnStreamSocketWrite
    simp only [hsess, hne, if_false]
    exact write_open_partial bits e { s with data_to_write := true } buffer k hopen hlen hk0 hkn
      hret hcb
  have second : OnStreamSocketWrite m lib bits e2 { s with data_to_write := true }
      (buffer.drop k) =
      { session := { s with data_to_write := false }
        effects :=
          [Effect.ChangeEventMask (bits.FD_WANT_POLL_READ ||| bits.FD_WANT_NO_WRITE)]
        ret := 1, buffer := buffer.drop k } := by
    unfold OnStreamSocketWrite
    simp only [hsess, hne, if_false]
    exact write_open_full bits e2 { s with data_to_write := true } (buffer.drop k) hopen
      (by rw [List.length_drop]; omega) (by rw [List.length_drop]; exact hret2) hcb2
  rw [first]
  refine ⟨rfl, List.length_drop k buffer, (List.take_append_drop k buffer).symm, rfl, rfl, hopen,
    rfl, ?_, ?_, ?_⟩
  · exact congrArg IOStep.ret second
  · exact congrArg (fun r => r.session.data_to_write) second
  · exact congrArg IOStep.effects second

/-- C9, witness: a buffer of 10000 bytes of which 4000 are accepted leaves
6000 bytes and returns 0; the following write of the 6000 bytes returns 1. -/
theorem C9_partial_write_witness :
    (OnStreamSocketWrite example_module example_lib example_bits write_4000_env open_session
      buffer_10000).buffer = buffer_10000.drop 4000 ∧
    (OnStreamSocketWrite example_module example_lib example_bits write_4000_env open_session
      buffer_10000).buffer.length = 6000 ∧
    (OnStreamSocketWrite example_module example_lib example_bits write_4000_env open_session
      buffer_10000).effects = [Effect.ChangeEventMask 0x100] ∧
    (OnStreamSocketWrite example_module example_lib example_bits write_4000_env open_session
      buffer_10000).ret = 0 ∧
    (OnStreamSocketWrite example_module example_lib example_bits write_6000_env
      (OnStreamSocketWrite example_module example_lib example_bits write_4000_env open_session
        buffer_10000).session
      (OnStreamSocketWrite example_module example_lib example_bits write_4000_env open_session
        buffer_10000).buffer).ret = 1 ∧
    (OnStreamSocketWrite example_module example_lib example_bits write_6000_env
      (OnStreamSocketWrite example_module example_lib example_bits write_4000_env open_session
        buffer_10000).session
      (OnStreamSocketWrite example_module example_lib example_bits write_4000_env open_session
        buffer_10000).buffer).effects = [Effect.ChangeEventMask (0x2 ||| 0x10)] := by
  have hlen : buffer_10000.length = 10000 := List.length_replicate _ _
  have h := C9_partial_write example_module example_lib example_bits write_4000_env
    write_6000_env open_session buffer_10000 4000 rfl (by decide) (by rw [hlen]; norm_num)
    (by norm_num) (by rw [hlen]; norm_num) rfl rfl (by rw [hlen]; rfl) rfl
  rw [hlen] at h
  exact ⟨h.1, h.2.1, h.2.2.2.1, h.2.2.2.2.2.2.1, h.2.2.2.2.2.2.2.1, h.2.2.2.2.2.2.2.2.2⟩

/-- C10: a read on an open session (status `ISSL_OPEN`, handle `h`) in which
`SSL_read` returns 0 and no renegotiation is signalled shuts down and frees the
handle, leaves the session without handle, with status `ISSL_NONE`, without
certificate and with an empty chain, sets the socket error "Connection closed"
once, returns -1 and leaves `recvq` as it was. A further read on the session,
whatever the library would report, returns -1, sets no socket error, and
changes neither the session nor `recvq`. -/
theorem C10_read_zero_closes (m : ModuleSSLOpenSSL) (lib : Lib) (bits : EventMaskBits)
    (e e2 : Env) (s : issl_session) (h : SSL) (recvq : Bytes)
    (hopen : s.status = .ISSL_OPEN) (hsess : s.sess = some h)
    (hret : e.SSL_read = 0) (hcb : e.handshake_start = false) :
    (OnStreamSocketRead m lib bits e s recvq).session =
      { s with sess := none, status := .ISSL_NONE, cert := none, chain := [] } ∧
    (OnStreamSocketRead m lib bits e s recvq).effects =
      [Effect.SSL_shutdown h, Effect.SSL_free h, Effect.status .ISSL_NONE,
        Effect.SetError "Connection closed"] ∧
    (OnStreamSocketRead m lib bits e s recvq).ret = -1 ∧
    (OnStreamSocketRead m lib bits e s recvq).buffer = recvq ∧
    (OnStreamSocketRead m lib bits e2 (OnStreamSocketRead m lib bits e s recvq).session
      (OnStreamSocketRead m lib bits e s recvq).buffer).ret = -1 ∧
    (∀ msg, Effect.SetError msg ∉
      (OnStreamSocketRead m lib bits e2 (OnStreamSocketRead m lib bits e s recvq).session
        (OnStreamSocketRead m lib bits e s recvq).buffer).effects) ∧
    (OnStreamSocketRead m lib bits e2 (OnStreamSocketRead m lib bits e s recvq).session
      (OnStreamSocketRead m lib bits e s recvq).buffer).session =
      (OnStreamSocketRead m lib bits e s recvq).session ∧
    (OnStreamSocketRead m lib bits e2 (OnStreamSocketRead m lib bits e s recvq).session
      (OnStreamSocketRead m lib bits e s recvq).buffer).buffer = recvq := by
  have first : OnStreamSocketRead m lib bits e s recvq =
      { session := { s with sess := none, status := .ISSL_NONE, cert := none, chain := [] }
        effects := [Effect.SSL_shutdown h, Effect.SSL_free h, Effect.status .ISSL_NONE,
          Effect.SetError "Connection closed"]
        ret := -1, buffer := recvq } := by
    unfold OnStreamSocketRead read_open SSLInfoCallback CheckRenego
    simp [hopen, hsess, hret, hcb, CloseSession]
  rw [first]
  simp [OnStreamSocketRead, CloseSession]

/-- C10, witness: an open session with handle 1 whose read returns 0 is
closed with the error "Connection closed"; a second read, in which the library
would deliver 5 bytes, returns -1 without any socket error. -/
theorem C10_read_zero_closes_witness :
    (open_session.status = .ISSL_OPEN ∧ open_session.sess = some 1 ∧
      quiet_env.SSL_read = 0 ∧ quiet_env.handshake_start = false) ∧
    (OnStreamSocketRead example_module example_lib example_bits quiet_env open_session
      []).session = fresh_session ∧
    (OnStreamSocketRead example_module example_lib example_bits quiet_env open_session
      []).effects =
      [Effect.SSL_shutdown 1, Effect.SSL_free 1, Effect.status .ISSL_NONE,
        Effect.SetError "Connection closed"] ∧
    (OnStreamSocketRead example_module example_lib example_bits quiet_env open_session []).ret
      = -1 ∧
    (OnStreamSocketRead example_module example_lib example_bits read_5_env
      (OnStreamSocketRead example_module example_lib example_bits quiet_env open_session
        []).session
      (OnStreamSocketRead example_module example_lib example_bits quiet_env open_session
        []).buffer).ret = -1 ∧
    (∀ msg, Effect.SetError msg ∉
      (OnStreamSocketRead example_module example_lib example_bits read_5_env
        (OnStreamSocketRead example_module example_lib example_bits quiet_env open_session
          []).session
        (OnStreamSocketRead example_module example_lib example_bits quiet_env open_session
          []).buffer).effects) := by
  have h := C10_read_zero_closes example_module example_lib example_bits quiet_env read_5_env
    open_session 1 [] rfl rfl rfl rfl
  exact ⟨⟨rfl, rfl, rfl, rfl⟩, h.1, h.2.1, h.2.2.1, h.2.2.2.2.1, h.2.2.2.2.2.1⟩

/-! ### Fatal handshake outcomes -/

/-- C16: a handshake step whose library call returns 0, or returns a negative
result with an error that is neither `SSL_ERROR_WANT_READ` nor
`SSL_ERROR_WANT_WRITE`, returns `false` and leaves the session as
`CloseSession` leaves it: a handle the session had is shut down and freed, the
session has no handle, status `ISSL_NONE`, no leaf certificate and an empty
chain. No event-mask change is requested. -/
theorem C16_handshake_fatal (m : ModuleSSLOpenSSL) (lib : Lib) (bits : EventMaskBits)
    (e : Env) (s : issl_session)
    (hfatal : (if s.outbound then e.SSL_connect else e.SSL_accept) = 0 ∨
      ((if s.outbound then e.SSL_connect else e.SSL_accept) < 0 ∧
        e.handshake_error ≠ SSL_ERROR_WANT_READ ∧ e.handshake_error ≠ SSL_ERROR_WANT_WRITE)) :
    (Handshake m lib bits e s).ret = false ∧
    (Handshake m lib bits e s).session = (CloseSession s).session ∧
    (Handshake m lib bits e s).session.sess = none ∧
    (Handshake m lib bits e s).session.status = .ISSL_NONE ∧
    (Handshake m lib bits e s).session.cert = none ∧
    (Handshake m lib bits e s).session.chain = [] ∧
    (∀ h, s.sess = some h →
      Effect.SSL_shutdown h ∈ (Handshake m lib bits e s).effects ∧
      Effect.SSL_free h ∈ (Handshake m lib bits e s).effects) ∧
    (∀ mask, Effect.ChangeEventMask mask ∉ (Handshake m lib bits e s).effects) := by
  have hshape : ∃ msg, Handshake m lib bits e s =
      { session := (CloseSession s).session
        effects := Effect.Log msg :: (CloseSession s).effects, ret := false } := by
    unfold Handshake
    rcases hfatal with h0 | ⟨hneg, hr, hw⟩
    · refine ⟨"OpenSSL handshake failure", ?_⟩
      simp [h0]
    · have hpos : ¬ (if s.outbound then e.SSL_connect else e.SSL_accept) > 0 := by omega
      simp only [hneg, hr, hw, hpos, if_true, if_false]
      exact ⟨_, rfl⟩
  obtain ⟨msg, hmsg⟩ := hshape
  rw [hmsg]
  refine ⟨rfl, rfl, rfl, rfl, rfl, rfl, ?_, ?_⟩
  · intro h hh
    simp [CloseSession, hh]
  · intro mask
    cases hh : s.sess <;> simp [CloseSession, hh]

/-- C16, witness: an inbound session with handle 1 whose `SSL_accept` returns
-1 with the error `SSL_ERROR_SSL`. -/
theorem C16_handshake_fatal_witness :
    ((if handshaking_session.outbound then fatal_env.SSL_connect else fatal_env.SSL_accept) = 0 ∨
      ((if handshaking_session.outbound then fatal_env.SSL_connect else fatal_env.SSL_accept) < 0
        ∧ fatal_env.handshake_error ≠ SSL_ERROR_WANT_READ
        ∧ fatal_env.handshake_error ≠ SSL_ERROR_WANT_WRITE)) ∧
    (Handshake example_module example_lib example_bits fatal_env handshaking_session).ret
      = false ∧
    (Handshake example_module example_lib example_bits fatal_env handshaking_session).session
      = fresh_session ∧
    (Handshake example_module example_lib example_bits fatal_env handshaking_session).effects
      = [Effect.Log "OpenSSL handshake error", Effect.SSL_shutdown 1, Effect.SSL_free 1,
          Effect.status .ISSL_NONE] := by
  have h := C16_handshake_fatal example_module example_lib example_bits fatal_env
    handshaking_session (by decide)
  exact ⟨by decide, h.1, by rw [h.2.1]; decide, by decide⟩

/-! ### Sessions without a handle -/

theorem sessions_at_of_getElem? (m : ModuleSSLOpenSSL) (fd : Int) (s : issl_session)
    (hfd : 0 ≤ fd) (hs : m.sessions[fd.toNat]? = some s) :
    sessions_at m fd = some s ∧ ¬ (fd < 0 ∨ fd > GetMaxFds m - 1) := by
  have hlt : fd.toNat < m.sessions.length := by
    by_contra hge
    rw [List.getElem?_eq_none (by omega)] at hs
    exact absurd hs (by simp)
  have hlt2 : fd < GetMaxFds m := by
    unfold GetMaxFds
    omega
  refine ⟨?_, by omega⟩
  unfold sessions_at
  rw [if_pos ⟨hfd, hlt2⟩]
  exact hs

/-- C12: for a descriptor whose entry of `sessions` has no handle, both
`OnStreamSocketRead` and `OnStreamSocketWrite` return -1, store the entry as
`CloseSession` leaves it (no handle, status `ISSL_NONE`, no certificate, empty
chain; `outbound` and `data_to_write` as they were), issue no effect other
than the status write, and leave `recvq`, respectively `buffer`, as it was. -/
theorem C12_no_handle_is_fatal (m : ModuleSSLOpenSSL) (lib : Lib) (bits : EventMaskBits)
    (e : Env) (fd : Int) (s : issl_session) (recvq buffer : Bytes)
    (hfd : 0 ≤ fd) (hs : m.sessions[fd.toNat]? = some s) (hsess : s.sess = none) :
    m.OnStreamSocketRead lib bits e fd recvq =
      .indexed
        (sessions_store m fd { s with sess := none, status := .ISSL_NONE, cert := none, chain := [] })
        [Effect.status .ISSL_NONE] (-1, recvq) ∧
    m.OnStreamSocketWrite lib bits e fd buffer =
      .indexed
        (sessions_store m fd { s with sess := none, status := .ISSL_NONE, cert := none, chain := [] })
        [Effect.status .ISSL_NONE] (-1, buffer) := by
  obtain ⟨hat, hrange⟩ := sessions_at_of_getElem? m fd s hfd hs
  constructor
  · unfold ModuleSSLOpenSSL.OnStreamSocketRead
    rw [if_neg hrange, hat]
    simp [OnStreamSocketRead, hsess, CloseSession]
  · unfold ModuleSSLOpenSSL.OnStreamSocketWrite
    rw [hat]
    simp [OnStreamSocketWrite, hsess, CloseSession]

/-- C12, witness: descriptor 0 of a module whose entries are
default-constructed; a read that would deliver 5 bytes and a write of 3 bytes
both return -1 and leave the buffers alone. -/
theorem C12_no_handle_is_fatal_witness :
    ((0 : Int) ≤ 0 ∧ two_session_module.sessions[(0 : Int).toNat]? = some fresh_session ∧
      fresh_session.sess = none) ∧
    two_session_module.OnStreamSocketRead example_lib example_bits read_5_env 0 [1, 2] =
      .indexed (sessions_store two_session_module 0 fresh_session)
        [Effect.status .ISSL_NONE] (-1, [1, 2]) ∧
    two_session_module.OnStreamSocketWrite example_lib example_bits write_4000_env 0 [7, 8, 9] =
      .indexed (sessions_store two_session_module 0 fresh_session)
        [Effect.status .ISSL_NONE] (-1, [7, 8, 9]) := by
  have h := C12_no_handle_is_fatal two_session_module example_lib example_bits read_5_env 0
    fresh_session [1, 2] [7, 8, 9] (by decide) (by decide) rfl
  have h2 := C12_no_handle_is_fatal two_session_module example_lib example_bits write_4000_env 0
    fresh_session [1, 2] [7, 8, 9] (by decide) (by decide) rfl
  exact ⟨⟨by decide, by decide, rfl⟩, h.1, h2.2⟩

/-! ### The validity window -/

theorem validity_test_fails_iff (cert : X509) (now : Int) :
    validity_test_fails cert now ↔ (cert.notAfter < now ∨ cert.notBefore = now) := by
  unfold validity_test_fails ASN1_UTCTIME_cmp_time_t
  constructor
  · rintro (h | h)
    · left
      by_cases h1 : cert.notAfter < now
      · exact h1
      · rw [if_neg h1] at h
        split_ifs at h
    · right
      by_cases h1 : cert.notBefore < now
      · rw [if_pos h1] at h
        omega
      · rw [if_neg h1] at h
        by_cases h2 : cert.notBefore = now
        · exact h2
        · rw [if_neg h2] at h
          omega
  · rintro (h | h)
    · left
      rw [if_pos h]
    · right
      rw [if_neg (by omega), if_pos h]

/-- C14, at the failing inputs: the test of line 979 compares the result for
`notBefore` with 0 where 1 would mean "later than now". At time 500 a
certificate valid from 1000 to 2000 (not yet activated) gets no error, and a
certificate valid from 500 to 2000 (inside its window) gets the error "Not
activated, or expired certificate"; an expired certificate (valid from 0 to
100) gets the error, as the claim says. -/
theorem C14_validity_window_evaluated :
    (VerifyCertificate example_module example_lib false 500 example_lib.new_ssl_cert
      (window_cert 1000 2000)).error = "" ∧
    (VerifyCertificate example_module example_lib false 500 example_lib.new_ssl_cert
      (window_cert 500 2000)).error = "Not activated, or expired certificate" ∧
    (VerifyCertificate example_module example_lib false 500 example_lib.new_ssl_cert
      (window_cert 0 100)).error = "Not activated, or expired certificate" := by
  decide

/-! ### A handle that could not be bound -/

/-- C19, at the failing input: when `SSL_new` succeeds and `SSL_set_fd` fails,
accept and connect return with status `ISSL_NONE` and the handle still in the
session; no `SSL_free` is issued. -/
theorem C19_unbound_handle_evaluated :
    (OnStreamSocketAccept example_module example_lib example_bits set_fd_fails_env
      fresh_session).session.status = .ISSL_NONE ∧
    (OnStreamSocketAccept example_module example_lib example_bits set_fd_fails_env
      fresh_session).session.sess = some 1 ∧
    (OnStreamSocketAccept example_module example_lib example_bits set_fd_fails_env
      fresh_session).effects = [Effect.status .ISSL_NONE] ∧
    (OnStreamSocketConnect example_module example_lib example_bits set_fd_fails_env
      fresh_session).session.status = .ISSL_NONE ∧
    (OnStreamSocketConnect example_module example_lib example_bits set_fd_fails_env
      fresh_session).session.sess = some 1 ∧
    (OnStreamSocketConnect example_module example_lib example_bits set_fd_fails_env
      fresh_session).effects = [Effect.status .ISSL_NONE] := by
  decide

/-! ### Descriptors outside the array -/

theorem sessions_at_outside (m : ModuleSSLOpenSSL) (fd : Int)
    (h : fd < 0 ∨ GetMaxFds m ≤ fd) : sessions_at m fd = none := by
  unfold sessions_at
  rw [if_neg (by omega)]

/-- C13, at the failing inputs: for a descriptor below 0 or not below the
number of entries of `sessions`, connect, close, read and the raw-session
request return without evaluating `sessions[fd]`, while accept, write, the
certificate request and the chain request evaluate `sessions[fd]` outside the
array. -/
theorem C13_descriptor_checks (m : ModuleSSLOpenSSL) (lib : Lib) (bits : EventMaskBits)
    (e : Env) (fd : Int) (recvq buffer : Bytes) (h : fd < 0 ∨ GetMaxFds m ≤ fd) :
    m.OnStreamSocketConnect lib bits e fd = .not_indexed () ∧
    m.OnStreamSocketClose fd = .not_indexed () ∧
    m.OnStreamSocketRead lib bits e fd recvq = .not_indexed (-1, recvq) ∧
    m.OnRequest (.GET_RAW_SSL_SESSION fd) = .not_indexed .nothing ∧
    m.OnStreamSocketAccept lib bits e fd = .out_of_bounds ∧
    m.OnStreamSocketWrite lib bits e fd buffer = .out_of_bounds ∧
    m.OnRequest (.GET_SSL_CERT fd) = .out_of_bounds ∧
    m.OnRequest (.GET_SSL_CHAIN fd) = .out_of_bounds := by
  have hat := sessions_at_outside m fd h
  have hr : fd < 0 ∨ fd > GetMaxFds m - 1 := by omega
  have hr2 : ¬ (fd ≥ 0 ∧ fd < GetMaxFds m) := by omega
  refine ⟨?_, ?_, ?_, ?_, ?_, ?_, ?_, ?_⟩
  · unfold ModuleSSLOpenSSL.OnStreamSocketConnect
    rw [if_pos hr]
  · unfold ModuleSSLOpenSSL.OnStreamSocketClose
    rw [if_pos hr]
  · unfold ModuleSSLOpenSSL.OnStreamSocketRead
    rw [if_pos hr]
  · simp only [ModuleSSLOpenSSL.OnRequest]
    rw [if_neg hr2]
  · unfold ModuleSSLOpenSSL.OnStreamSocketAccept
    rw [hat]
  · unfold ModuleSSLOpenSSL.OnStreamSocketWrite
    rw [hat]
  · simp only [ModuleSSLOpenSSL.OnRequest]
    rw [hat]
  · simp only [ModuleSSLOpenSSL.OnRequest]
    rw [hat]

/-- C13, witness: descriptors -1 and 2 of a module with two entries. -/
theorem C13_descriptor_checks_witness :
    (((-1 : Int) < 0 ∨ GetMaxFds two_session_module ≤ -1) ∧
      ((2 : Int) < 0 ∨ GetMaxFds two_session_module ≤ 2)) ∧
    two_session_module.OnStreamSocketWrite example_lib example_bits write_4000_env (-1) [1]
      = .out_of_bounds ∧
    two_session_module.OnStreamSocketAccept example_lib example_bits quiet_env 2
      = .out_of_bounds ∧
    two_session_module.OnRequest (.GET_SSL_CERT 2) = .out_of_bounds ∧
    two_session_module.OnRequest (.GET_SSL_CHAIN (-1)) = .out_of_bounds ∧
    two_session_module.OnStreamSocketRead example_lib example_bits quiet_env 2 []
      = .not_indexed (-1, []) := by
  have h1 := C13_descriptor_checks two_session_module example_lib example_bits write_4000_env
    (-1) [] [1] (by decide)
  have h2 := C13_descriptor_checks two_session_module example_lib example_bits quiet_env
    2 [] [] (by decide)
  exact ⟨⟨by decide, by decide⟩, h1.2.2.2.2.2.1, h2.2.2.2.2.1, h2.2.2.2.2.2.2.1,
    h1.2.2.2.2.2.2.2, h2.2.2.1⟩

/-! ### Order of the two strength checks -/

theorem key_loop_not_found (lib : Lib) (id bits : Int) :
    ∀ (keytypes keysizes : List Int), id ∉ keytypes →
      key_loop lib id bits keytypes keysizes = .not_found := by
  intro keytypes
  induction keytypes with
  | nil => intro keysizes _; rfl
  | cons x xs ih =>
    intro keysizes h
    have hx : id ≠ x := fun hx => h (by simp [hx])
    have hxs : id ∉ xs := fun hxs => h (by simp [hxs])
    rw [key_loop, if_pos hx]
    exact ih _ hxs

theorem key_type_error_ne_sigalg_error (m : ModuleSSLOpenSSL) (lib : Lib) (t nid : Int)
    (sigalgs : List Int) : key_type_error m lib t ≠ sigalg_error lib nid sigalgs := by
  intro h
  have := congrArg String.data h
  simp [key_type_error, sigalg_error, String.data_append] at this

theorem key_size_error_ne_sigalg_error (lib : Lib) (t min bits nid : Int)
    (sigalgs : List Int) : key_size_error lib t min bits ≠ sigalg_error lib nid sigalgs := by
  intro h
  have := congrArg String.data h
  simp [key_size_error, sigalg_error, String.data_append] at this

/-- C18, as amended: the signature-algorithm check is reached only when the
key check has passed. For a certificate whose signature algorithm is not in
the non-empty allow-list and whose public key can be read: if the key type is
not in the non-empty key-size list, `VerifyCertificateStrength` reports the
key-type error of line 1060 and not the signature-algorithm error; if the key
type matches an entry and the key is too short, it reports the key-size error
of line 1047 and not the signature-algorithm error; if the key type matches an
entry and the key is long enough, it reports the signature-algorithm error of
line 1083. -/
theorem C18_checks_in_sequence (m : ModuleSSLOpenSSL) (lib : Lib) (cert : X509) (k : EVP_PKEY)
    (min : Int) (hlist : m.sigalgs ≠ []) (habsent : cert.signature_nid ∉ m.sigalgs)
    (hkey : cert.pubkey = some k) :
    (m.keytypes ≠ [] → k.id ∉ m.keytypes →
      VerifyCertificateStrength m lib cert = key_type_error m lib k.id ∧
      VerifyCertificateStrength m lib cert ≠ sigalg_error lib cert.signature_nid m.sigalgs) ∧
    (List.find? (fun p => p.1 == k.id) (List.zip m.keytypes m.keysizes) = some (k.id, min) →
      k.bits < min →
      VerifyCertificateStrength m lib cert = key_size_error lib k.id min k.bits ∧
      VerifyCertificateStrength m lib cert ≠ sigalg_error lib cert.signature_nid m.sigalgs) ∧
    (List.find? (fun p => p.1 == k.id) (List.zip m.keytypes m.keysizes) = some (k.id, min) →
      min ≤ k.bits →
      VerifyCertificateStrength m lib cert = sigalg_error lib cert.signature_nid m.sigalgs) := by
  refine ⟨?_, ?_, ?_⟩
  · intro hne hnot
    have h1 : VerifyCertificateStrength m lib cert = key_type_error m lib k.id := by
      unfold VerifyCertificateStrength key_type_error
      rw [if_pos hne]
      simp only [hkey, key_loop_not_found lib k.id k.bits m.keytypes m.keysizes hnot]
    exact ⟨h1, by rw [h1]; exact key_type_error_ne_sigalg_error m lib _ _ _⟩
  · intro hentry hlt
    have h1 := VerifyCertificateStrength_of_find m lib cert k min hkey hentry
    rw [if_pos hlt] at h1
    exact ⟨h1, by rw [h1]; exact key_size_error_ne_sigalg_error lib _ _ _ _ _⟩
  · intro hentry hge
    have h1 := VerifyCertificateStrength_of_find m lib cert k min hkey hentry
    rw [if_neg (by omega), verify_sigalg_eq m lib cert hlist, if_neg habsent] at h1
    exact h1

/-- C18, witness: with RSA keys of at least 2048 bits required and only
`sha256WithRSAEncryption` allowed, a certificate signed with
`md5WithRSAEncryption` gets the key-type error when its key is an EC key, the
key-size error when its key is a 1024 bit RSA key, and the signature-algorithm
error when its key is a 2048 bit RSA key. -/
theorem C18_checks_in_sequence_witness :
    (strict_module.sigalgs ≠ [] ∧ (8 : Int) ∉ strict_module.sigalgs) ∧
    VerifyCertificateStrength strict_module example_lib (md5_cert_with_key 408 256)
      = "Peer key type 'id-ecPublicKey' does not match expected peer key type:size pairs 'rsaEncryption:2048'" ∧
    VerifyCertificateStrength strict_module example_lib (md5_cert_with_key 6 1024)
      = "'rsaEncryption' key must be >= '2048' bits, was '1024'" ∧
    VerifyCertificateStrength strict_module example_lib (md5_cert_with_key 6 2048)
      = "Invalid signature algorithm; got 'RSA-MD5' expected one of 'RSA-SHA256'" := by
  have h1 := (C18_checks_in_sequence strict_module example_lib (md5_cert_with_key 408 256)
    { id := 408, bits := 256 } 2048 (by decide) (by decide) rfl).1 (by decide) (by decide)
  have h2 := (C18_checks_in_sequence strict_module example_lib (md5_cert_with_key 6 1024)
    { id := 6, bits := 1024 } 2048 (by decide) (by decide) rfl).2.1 (by decide) (by decide)
  have h3 := (C18_checks_in_sequence strict_module example_lib (md5_cert_with_key 6 2048)
    { id := 6, bits := 2048 } 2048 (by decide) (by decide) rfl).2.2 (by decide) (by decide)
  refine ⟨⟨by decide, by decide⟩, ?_, ?_, ?_⟩
  · rw [h1.1]; decide
  · rw [h2.1]; decide
  · rw [h3]; decide

/-- C18, as stated, fails: with RSA keys of at least 2048 bits required and
only `sha256WithRSAEncryption` allowed, a certificate with an EC key that is
signed with `md5WithRSAEncryption` is reported with the key-type error alone;
the signature-algorithm error is not reported. -/
theorem C18_counterexample :
    strict_module.keytypes ≠ [] ∧ strict_module.sigalgs ≠ [] ∧
    (md5_cert_with_key 408 256).signature_nid ∉ strict_module.sigalgs ∧
    (408 : Int) ∉ strict_module.keytypes ∧
    VerifyCertificateStrength strict_module example_lib (md5_cert_with_key 408 256)
      = "Peer key type 'id-ecPublicKey' does not match expected peer key type:size pairs 'rsaEncryption:2048'" ∧
    ¬ mentions (VerifyCertificateStrength strict_module example_lib (md5_cert_with_key 408 256))
      "Invalid signature algorithm" ∧
    VerifyCertificateStrength strict_module example_lib (md5_cert_with_key 408 256)
      ≠ sigalg_error example_lib 8 strict_module.sigalgs := by
  have h : VerifyCertificateStrength strict_module example_lib (md5_cert_with_key 408 256)
      = "Peer key type 'id-ecPublicKey' does not match expected peer key type:size pairs 'rsaEncryption:2048'" := by
    decide
  refine ⟨by decide, by decide, by decide, by decide, h, ?_, ?_⟩
  · rw [h]
    set_option maxRecDepth 20000 in decide
  · rw [h]
    decide

/-! ### Errors of the chain -/

theorem string_append_ne_empty_left (a b : String) (h : a ≠ "") : a ++ b ≠ "" := by
  intro hab
  apply h
  have := congrArg String.data hab
  simp only [String.data_append, List.append_eq_nil] at this
  exact String.ext this.1

theorem string_append_ne_empty_right (a b : String) (h : b ≠ "") : a ++ b ≠ "" := by
  intro hab
  apply h
  have := congrArg String.data hab
  simp only [String.data_append, List.append_eq_nil] at this
  exact String.ext this.2

theorem string_empty_append (p : String) : "" ++ p = p :=
  String.ext (by simp [String.data_append])

theorem chain_messages_ne_empty (k : Nat) (cs : List ssl_cert) :
    ∀ p ∈ chain_messages k cs, p ≠ "" := by
  induction cs generalizing k with
  | nil => intro p hp; simp [chain_messages] at hp
  | cons c cs ih =>
    intro p hp
    simp only [chain_messages, List.mem_append] at hp
    rcases hp with hp | hp
    · split_ifs at hp with hc
      · simp only [List.mem_singleton] at hp
        rw [hp]
        exact string_append_ne_empty_left _ _
          (string_append_ne_empty_left _ _ (string_append_ne_empty_left _ _ (by decide)))
      · simp at hp
    · exact ih (k + 1) p hp

theorem append_parts_go (acc : String) (ps : List String) (hacc : acc ≠ "") :
    append_parts acc ps = String.intercalate.go acc "\n\t" ps := by
  induction ps generalizing acc with
  | nil => simp [append_parts, String.intercalate.go]
  | cons p ps ih =>
    rw [append_parts, if_pos hacc, String.intercalate.go]
    exact ih _ (string_append_ne_empty_left _ _ (string_append_ne_empty_left _ _ hacc))

theorem append_parts_eq_intercalate (acc : String) (ps : List String)
    (hps : ∀ p ∈ ps, p ≠ "") :
    append_parts acc ps =
      String.intercalate "\n\t" ((if acc ≠ "" then [acc] else []) ++ ps) := by
  by_cases hacc : acc = ""
  · subst hacc
    simp only [ne_eq, not_true_eq_false, if_false, List.nil_append]
    cases ps with
    | nil => rfl
    | cons p ps =>
      rw [append_parts, if_neg (by simp), string_empty_append]
      rw [append_parts_go p ps (hps p (by simp))]
      rfl
  · rw [if_pos hacc, append_parts_go acc ps hacc]
    rfl

theorem verify_chain_loop_eq (m : ModuleSSLOpenSSL) (lib : Lib) (e : Env) :
    ∀ (l : List X509) (i : Nat) (certinfo : ssl_cert) (session_chain : List ssl_cert),
      verify_chain_loop m lib e.SelfSigned e.Time l i (certinfo, session_chain) =
        ({ certinfo with
            error := append_parts certinfo.error
              (chain_messages (i + 1) (l.map (chain_record m lib e))) },
          session_chain ++ l.map (chain_record m lib e)) := by
  intro l
  induction l with
  | nil => intro i certinfo sc; simp [verify_chain_loop, chain_messages, append_parts]
  | cons x xs ih =>
    intro i certinfo sc
    rw [verify_chain_loop]
    simp only []
    rw [ih]
    simp only [List.map_cons, chain_messages, List.append_assoc, List.singleton_append]
    by_cases hx : (chain_record m lib e x).error = ""
    · have hx2 : (VerifyCertificate m lib e.SelfSigned e.Time lib.new_ssl_cert x).error = "" := hx
      simp [hx, hx2, chain_record]
    · have hx2 : (VerifyCertificate m lib e.SelfSigned e.Time lib.new_ssl_cert x).error ≠ "" := hx
      simp only [ne_eq, hx, hx2, not_false_eq_true, if_true, List.singleton_append, append_parts]
      by_cases hc : certinfo.error = ""
      · simp [hc, chain_record]
      · simp [hc, chain_record]

theorem chain_messages_nil_of_no_error (k : Nat) (cs : List ssl_cert)
    (h : ∀ c ∈ cs, c.error = "") : chain_messages k cs = [] := by
  induction cs generalizing k with
  | nil => rfl
  | cons c cs ih =>
    have hc : c.error = "" := h c (by simp)
    simp only [chain_messages, hc, ne_eq, not_true_eq_false, if_false, List.nil_append]
    exact ih (k + 1) (fun c hc => h c (by simp [hc]))

/-- C17: for a session with a handle, a peer with a leaf certificate and a
chain of `n` members, `VerifyChain` appends to `session->chain` the `n`
records of the members in chain order, and installs the record of the leaf
with its error text replaced by the following parts joined by "\n\t": the
leaf's own error when it is not empty, then, for each member `k` (counted
from 1, in increasing order) whose own error `e` is not empty, the text
"Cert chain #k: e". Members with an empty error contribute nothing, and when
the leaf and all members have an empty error the leaf's error is empty. -/
theorem C17_chain_errors (m : ModuleSSLOpenSSL) (lib : Lib) (e : Env) (s : issl_session)
    (cert : X509) (l : List X509)
    (hsess : s.sess ≠ none)
    (hleaf : e.peer.SSL_get_peer_certificate = some cert)
    (hchain : e.peer.SSL_get_peer_cert_chain = some l) :
    (VerifyChain m lib e s true).chain = s.chain ++ l.map (chain_record m lib e) ∧
    (VerifyChain m lib e s true).chain.length = s.chain.length + l.length ∧
    (VerifyChain m lib e s true).cert =
      some { leaf_record m lib e cert with
        error := String.intercalate "\n\t"
          ((if (leaf_record m lib e cert).error ≠ "" then [(leaf_record m lib e cert).error]
              else [])
            ++ chain_messages 1 (l.map (chain_record m lib e))) } ∧
    ((leaf_record m lib e cert).error = "" →
      (∀ x ∈ l, (chain_record m lib e x).error = "") →
      (VerifyChain m lib e s true).cert = some (leaf_record m lib e cert)) := by
  have hv : VerifyChain m lib e s true =
      { s with
        cert := some { leaf_record m lib e cert with
          error := append_parts (leaf_record m lib e cert).error
            (chain_messages 1 (l.map (chain_record m lib e))) }
        chain := s.chain ++ l.map (chain_record m lib e) } := by
    unfold VerifyChain
    simp only [hsess, false_or, Bool.true_eq_false, if_false, hleaf, hchain]
    rw [verify_chain_loop_eq]
    rfl
  rw [hv]
  refine ⟨rfl, by simp, ?_, ?_⟩
  · simp only []
    rw [append_parts_eq_intercalate _ _ (chain_messages_ne_empty 1 _)]
  · intro hl hall
    have hnil : chain_messages 1 (l.map (chain_record m lib e)) = [] := by
      apply chain_messages_nil_of_no_error
      intro c hc
      obtain ⟨x, hx, rfl⟩ := List.mem_map.mp hc
      exact hall x hx
    simp only [hnil, append_parts]

/-- C17, witness: a leaf with a 1024 bit RSA key and a chain of a 4096 bit and
a 1024 bit RSA certificate under the policy (rsaEncryption, 2048): two chain
records are stored, and the leaf's error is its own key-size error followed by
the error of chain member 2. -/
theorem C17_chain_errors_witness :
    (handshaking_session.sess ≠ none ∧
      chain_env.peer.SSL_get_peer_certificate = some (rsa_cert 1024 1000) ∧
      chain_env.peer.SSL_get_peer_cert_chain
        = some [rsa_cert 4096 1000, rsa_cert 1024 1000]) ∧
    (VerifyChain rsa_2048_module example_lib chain_env handshaking_session true).chain.length
      = 2 ∧
    ((VerifyChain rsa_2048_module example_lib chain_env handshaking_session true).chain.map
      (fun c => c.error)) = ["", "'rsaEncryption' key must be >= '2048' bits, was '1024'"] ∧
    ((VerifyChain rsa_2048_module example_lib chain_env handshaking_session true).cert.map
      (fun c => c.error)) =
      some "'rsaEncryption' key must be >= '2048' bits, was '1024'\n\tCert chain #2: 'rsaEncryption' key must be >= '2048' bits, was '1024'" := by
  have h := C17_chain_errors rsa_2048_module example_lib chain_env handshaking_session
    (rsa_cert 1024 1000) [rsa_cert 4096 1000, rsa_cert 1024 1000] (by decide) rfl rfl
  refine ⟨⟨by decide, rfl, rfl⟩, h.2.1, ?_, ?_⟩
  · rw [h.1]
    decide
  · rw [h.2.2.1]
    set_option maxRecDepth 20000 in decide

/-! ### Rehash -/

theorem keymins_loop_sessions (env : RehashEnv) :
    ∀ (fuel : Nat) (m : ModuleSSLOpenSSL) (keymins : String),
      (keymins_loop env fuel m keymins).1.sessions = m.sessions := by
  intro fuel
  induction fuel with
  | zero => intro m keymins; rfl
  | succ n ih =>
    intro m keymins
    rw [keymins_loop]
    simp only []
    repeat' split
    all_goals first | rfl | rw [ih]

theorem sigalgs_loop_sessions (env : RehashEnv) :
    ∀ (fuel : Nat) (m : ModuleSSLOpenSSL) (sigalgstrs : String),
      (sigalgs_loop env fuel m sigalgstrs).1.sessions = m.sessions := by
  intro fuel
  induction fuel with
  | zero => intro m sigalgstrs; rfl
  | succ n ih =>
    intro m sigalgstrs
    rw [sigalgs_loop]
    simp only []
    repeat' split
    all_goals first | rfl | rw [ih]

theorem OnModuleRehash_sessions (m : ModuleSSLOpenSSL) (env : RehashEnv) (conf : ConfigTag)
    (param : String) : (OnModuleRehash m env conf param).module.sessions = m.sessions := by
  unfold OnModuleRehash
  simp only []
  repeat' split
  all_goals first | rfl | simp only [sigalgs_loop_sessions, keymins_loop_sessions]

/-- C11: when the CRL mode of the configuration is neither "chain" nor
"leaf", `OnModuleRehash` with the parameter "ssl" is left with a
`ModuleException`: the one of line 444 naming the mode, or, when the hash name
is not accepted either, the one of line 386. The array `sessions` is as
before, and so are `keytypes`, `keysizes` and `sigalgs`. -/
theorem C11_unknown_crl_mode (m : ModuleSSLOpenSSL) (env : RehashEnv) (conf : ConfigTag)
    (h1 : conf.crlmode ≠ "chain") (h2 : conf.crlmode ≠ "leaf") :
    (OnModuleRehash m env conf "ssl").exception =
      some (if conf.hash = "md5" ∨ conf.hash = "sha1"
              ∨ (env.sha256_fingerprint = true ∧ conf.hash = "sha256") then
            "Unknown mode '" ++ conf.crlmode ++ "'; expected either 'chain' (default) or 'leaf'"
          else "Unknown hash type " ++ conf.hash) ∧
    (OnModuleRehash m env conf "ssl").exception ≠ none ∧
    (OnModuleRehash m env conf "ssl").module.sessions = m.sessions ∧
    (OnModuleRehash m env conf "ssl").module.keytypes = m.keytypes ∧
    (OnModuleRehash m env conf "ssl").module.keysizes = m.keysizes ∧
    (OnModuleRehash m env conf "ssl").module.sigalgs = m.sigalgs := by
  unfold OnModuleRehash
  simp only [ne_eq, not_true_eq_false, if_false, h1, h2, not_false_eq_true, and_self, if_true]
  by_cases hmd5 : conf.hash = "md5"
  · simp [hmd5]
  · by_cases hsha1 : conf.hash = "sha1"
    · simp [hsha1]
    · by_cases hsha256 : env.sha256_fingerprint = true ∧ conf.hash = "sha256"
      · simp [hmd5, hsha1, hsha256]
      · simp [hmd5, hsha1, hsha256]

/-- C11, witness: the CRL mode "full". -/
theorem C11_unknown_crl_mode_witness :
    (bad_crlmode_config.crlmode ≠ "chain" ∧ bad_crlmode_config.crlmode ≠ "leaf") ∧
    (OnModuleRehash two_session_module example_rehash_env bad_crlmode_config "ssl").exception =
      some "Unknown mode 'full'; expected either 'chain' (default) or 'leaf'" ∧
    (OnModuleRehash two_session_module example_rehash_env bad_crlmode_config
      "ssl").module.sessions = [fresh_session, fresh_session] := by
  have h := C11_unknown_crl_mode two_session_module example_rehash_env bad_crlmode_config
    (by decide) (by decide)
  refine ⟨⟨by decide, by decide⟩, ?_, h.2.2.1⟩
  rw [h.1]
  decide

theorem string_eq_empty_of_length (s : String) (h : s.length = 0) : s = "" :=
  String.ext (List.length_eq_zero.mp h)

theorem erase_front_length (s : String) (d : Nat) (hs : s ≠ "") :
    (erase_front s (d + 1)).length ≤ s.length - 1 := by
  have hpos : 0 < s.length := by
    rcases Nat.eq_zero_or_pos s.length with h | h
    · exact absurd (string_eq_empty_of_length s h) hs
    · exact h
  simp only [erase_front, String.length, List.length_drop]
  have : s.length = s.data.length := rfl
  omega

/-- The key-size loop does not depend on its bound once the bound is at least
the length of the text: no pass is cut off. -/
theorem keymins_loop_fuel (env : RehashEnv) :
    ∀ (n k : Nat) (m : ModuleSSLOpenSSL) (s : String), s.length ≤ n → s.length ≤ k →
      keymins_loop env n m s = keymins_loop env k m s := by
  intro n
  induction n with
  | zero =>
    intro k m s hn _
    have hs := string_eq_empty_of_length s (by omega)
    subst hs
    cases k with
    | zero => rfl
    | succ k => rw [keymins_loop, keymins_loop, if_pos rfl]
  | succ n ih =>
    intro k m s hn hk
    by_cases hs : s = ""
    · subst hs
      cases k with
      | zero => rw [keymins_loop, keymins_loop, if_pos rfl]
      | succ k => rw [keymins_loop, keymins_loop, if_pos rfl, if_pos rfl]
    · cases k with
      | zero => exact absurd (string_eq_empty_of_length s (by omega)) hs
      | succ k =>
        have key : ∀ (m2 : ModuleSSLOpenSSL) (d : Nat),
            keymins_loop env n m2 (erase_front s (d + 1))
              = keymins_loop env k m2 (erase_front s (d + 1)) := by
          intro m2 d
          have hl := erase_front_length s d hs
          exact ih k m2 _ (by omega) (by omega)
        rw [keymins_loop, keymins_loop]
        simp only [key]

/-- The signature-algorithm loop does not depend on its bound once the bound
is at least the length of the text. -/
theorem sigalgs_loop_fuel (env : RehashEnv) :
    ∀ (n k : Nat) (m : ModuleSSLOpenSSL) (s : String), s.length ≤ n → s.length ≤ k →
      sigalgs_loop env n m s = sigalgs_loop env k m s := by
  intro n
  induction n with
  | zero =>
    intro k m s hn _
    have hs := string_eq_empty_of_length s (by omega)
    subst hs
    cases k with
    | zero => rfl
    | succ k => rw [sigalgs_loop, sigalgs_loop, if_pos rfl]
  | succ n ih =>
    intro k m s hn hk
    by_cases hs : s = ""
    · subst hs
      cases k with
      | zero => rw [sigalgs_loop, sigalgs_loop, if_pos rfl]
      | succ k => rw [sigalgs_loop, sigalgs_loop, if_pos rfl, if_pos rfl]
    · cases k with
      | zero => exact absurd (string_eq_empty_of_length s (by omega)) hs
      | succ k =>
        have key : ∀ (m2 : ModuleSSLOpenSSL) (d : Nat),
            sigalgs_loop env n m2 (erase_front s (d + 1))
              = sigalgs_loop env k m2 (erase_front s (d + 1)) := by
          intro m2 d
          have hl := erase_front_length s d hs
          exact ih k m2 _ (by omega) (by omega)
        rw [sigalgs_loop, sigalgs_loop]
        simp only [key]

/-- C15, at the failing input: `keytypes`, `keysizes` and `sigalgs` are only
ever appended to. A first rehash of a module with empty lists stores the
lists parsed from the configuration. A second rehash with the same
configuration is left with the exception "Key type 'rsaEncryption' specified
multiple times"; with a configuration that has no key-size policy the second
rehash succeeds and stores the signature algorithm twice. -/
theorem C15_rehash_twice_evaluated :
    (OnModuleRehash example_module example_rehash_env policy_config "ssl").exception = none ∧
    (OnModuleRehash example_module example_rehash_env policy_config "ssl").module.keytypes
      = [6] ∧
    (OnModuleRehash example_module example_rehash_env policy_config "ssl").module.keysizes
      = [2048] ∧
    (OnModuleRehash example_module example_rehash_env policy_config "ssl").module.sigalgs
      = [668] ∧
    (OnModuleRehash
      (OnModuleRehash example_module example_rehash_env policy_config "ssl").module
      example_rehash_env policy_config "ssl").exception
      = some "Key type 'rsaEncryption' specified multiple times" ∧
    (OnModuleRehash example_module example_rehash_env sigalg_config "ssl").module.sigalgs
      = [668] ∧
    (OnModuleRehash
      (OnModuleRehash example_module example_rehash_env sigalg_config "ssl").module
      example_rehash_env sigalg_config "ssl").exception = none ∧
    (OnModuleRehash
      (OnModuleRehash example_module example_rehash_env sigalg_config "ssl").module
      example_rehash_env sigalg_config "ssl").module.sigalgs = [668, 668] := by
  refine ⟨?_, ?_, ?_, ?_, ?_, ?_, ?_, ?_⟩ <;> decide

end OpenSSLModule
